import Mathlib

/-!
Verification of the rlox tree-walking interpreter (a Rust implementation of
the Lox language with extensions: ternary, comma, increment and decrement,
lambdas, break).  This file gives a shallow embedding, in Lean, of the parts
of the source needed to settle the frozen claims:

  - the token model (token.rs, extended with the Fn, Break, Increment and
    Decrement kinds that the current scanner and parser use),
  - the AST (ast/expr.rs, ast/stmt.rs; the Class statement carries the
    superclass field that parse.rs, resolve.rs and interp.rs all use),
  - the string-literal loop of the scanner (scanner/scanner.rs),
  - the environment chain (environment/env.rs),
  - the recursive-descent parser (parser/parse.rs),
  - the resolver (resolver/resolve.rs),
  - the evaluator (interpreter/interp.rs, function/func.rs,
    class/lox_class.rs, instance/inst.rs),
  - the driver pipeline (main.rs, fn run).

Modelling conventions, used consistently below:

  - Rust numeric literals are f64; every program considered here uses only
    small integers, on which f64 arithmetic is exact, so numbers are
    embedded as Int.
  - Rc-RefCell sharing of environments and instances is embedded as an
    arena: environments and instances live in lists inside the interpreter
    state and are referenced by index.  A freshly allocated environment or
    instance is appended at the end, so an enclosing reference always
    points below the referring entry, and a chain walk of length at most
    the arena size reaches the root; chain-walking functions therefore
    take an explicit fuel argument.
  - The ByAddress node-identity keys of the depth table are embedded as a
    nodeId field on the four identity-carrying expression forms (Variable,
    Assign, This, Super); the parser hands out fresh ids from a counter,
    mirroring the fact that each Rc allocation has a distinct address.
  - Rust panics (unimplemented, index underflow) and loops whose
    termination is in question are embedded by returning none from an
    Option-valued function; every recursive function that is not
    structurally recursive on its input takes a fuel argument and returns
    none when the fuel runs out.
  - The source lexemes are borrowed str slices; they are embedded as
    String.  Scanner cursors count characters rather than UTF-8 bytes;
    all inputs considered are ASCII, where the two coincide.
-/

namespace Rlox

/-! ## Token model (token.rs, with the kinds used by scanner/scanner.rs and
parser/parse.rs: Fn replaces Fun, and Break, Increment, Decrement exist). -/

inductive TokenType where
  | LeftParen | RightParen | LeftBrace | RightBrace
  | Comma | Dot | Minus | Plus | Semicolon | Slash | Star
  | Question | Colon
  | Bang | BangEqual | Equal | EqualEqual
  | Greater | GreaterEqual | Less | LessEqual
  | Identifier | String | Number
  | And | Class | Else | False | Fn | For | If | Nil | Or
  | Print | Return | Super | This | True | Var | While | Break
  | Increment | Decrement
  | Eof
deriving DecidableEq, Repr

/-- Literal payload of a token (token.rs, enum Literal).  Num is f64 in the
source; embedded as Int, exact for the integer literals used here. -/
inductive Lit where
  | Str (s : String)
  | Num (n : Int)
  | True
  | False
  | Nil
deriving DecidableEq, Repr

/-- Token record (token.rs, struct Token). -/
structure Token where
  kind : TokenType
  lexeme : String
  literal : Option Lit
  line : Nat
deriving DecidableEq, Repr

/-! ## AST (ast/expr.rs and ast/stmt.rs).  The Stmt.Class constructor has
the superclass field used by parse.rs, resolve.rs and interp.rs (the
stmt.rs draft under src omits it; the callers fix its shape).  The nodeId
fields embed Rc address identity, as explained above.  The Mutate field
named postfix in the source appears here as isPost. -/

mutual

inductive Expr where
  | Assign (nodeId : Nat) (name : Token) (value : Expr)
  | Binary (left : Expr) (operator : Token) (right : Expr)
  | Call (callee : Expr) (paren : Token) (args : List Expr)
  | Unary (operator : Token) (right : Expr)
  | Mutate (operator : Token) (operand : Expr) (isPost : Bool)
  | Variable (nodeId : Nat) (name : Token)
  | Ternary (condition : Expr) (true_expr : Expr) (false_expr : Expr)
  | Set (object : Expr) (name : Token) (value : Expr)
  | Super (nodeId : Nat) (keyword : Token) ( method : Token)
  | This (nodeId : Nat) (keyword : Token)
  | Logical (left : Expr) (operator : Token) (right : Expr)
  | Lambda (params : List Token) (body : List Stmt)
  | Literal (l : Lit)
  | Get (object : Expr) (name : Token)
  | Grouping (inner : Expr)
  deriving Repr

inductive Stmt where
  | Block (stmts : List Stmt)
  | Class (name : Token) (superclass : Option Expr) (methods : List FunctionDecl)
  | Expression (e : Expr)
  | Function (decl : FunctionDecl)
  | If (condition : Expr) (then_branch : Stmt) (else_branch : Option Stmt)
  | Print (e : Expr)
  | Return (keyword : Token) (value : Option Expr)
  | Var (name : Token) (initializer : Option Expr)
  | While (condition : Expr) (body : Stmt)
  | Break (keyword : Token)
  deriving Repr

inductive FunctionDecl where
  | mk (name : Option Token) (params : List Token) (body : List Stmt)
  deriving Repr

end

def FunctionDecl.name : FunctionDecl → Option Token
  | .mk n _ _ => n

def FunctionDecl.params : FunctionDecl → List Token
  | .mk _ p _ => p

def FunctionDecl.body : FunctionDecl → List Stmt
  | .mk _ _ b => b

/-! ## Scanner errors (error/err.rs).  The Io variant wraps an io::Error in
the source; its payload is irrelevant to scanning logic and is dropped. -/

inductive ScannerError where
  | Io
  | UnexpectedChar (c : Char) (line : Nat)
  | UnterminatedString (line : Nat)
  | UnterminatedEscape (line : Nat)
  | UnterminatedComment (line : Nat)
deriving DecidableEq, Repr

/-! ## The string-literal loop of the scanner (scanner/scanner.rs, fn
string).  The scanner state keeps the source as a character list and the
start and current cursors as character indices (ASCII inputs make the
character index coincide with the byte index of the source).  Only the
fields that fn string reads and writes are modelled: source, start,
current, line, and the produced token list. -/

structure ScanSt where
  source : List Char
  start : Nat
  current : Nat
  line : Nat
  tokens : List Token
deriving Repr

namespace Scanner

/-- Scanner.peek: the character at the current cursor, if any. -/
def peek (st : ScanSt) : Option Char :=
  (st.source.drop st.current).head?

/-- Scanner.is_at_end: the current cursor has passed the last character. -/
def is_at_end (st : ScanSt) : Bool :=
  st.source.length ≤ st.current

/-- Scanner.advance: consume one character, moving the current cursor. -/
def advance (st : ScanSt) : Option Char × ScanSt :=
  match peek st with
  | none => (none, st)
  | some c => (some c, { st with current := st.current + 1 })

/-- Lexeme slice between two cursors, as a String. -/
def slice (st : ScanSt) (a b : Nat) : String :=
  String.mk ((st.source.drop a).take (b - a))

/-- Scanner.string, the while-let loop body plus the epilogue
(scanner/scanner.rs lines 206 to 232), driven by fuel.  Each iteration
matches on the peeked character: a double quote breaks out of the loop, a
newline increments the line counter (and, exactly as in the source, does
not advance the cursor), a backslash consumes the escape pair or fails
with UnterminatedEscape at end of input, and any other character is
consumed.  After the loop: UnterminatedString at end of input, otherwise
the closing quote is consumed and a String token is pushed whose literal
is the text between the quotes. -/
def stringF : Nat → ScanSt → Option (Except ScannerError ScanSt)
  | 0, _ => none
  | fuel+1, st =>
    match peek st with
    | some '"' => some (stringEnd st)
    | some '\n' => stringF fuel { st with line := st.line + 1 }
    | some '\\' =>
      let st1 := (advance st).2
      if is_at_end st1 then
        some (Except.error (ScannerError.UnterminatedEscape st1.line))
      else
        stringF fuel (advance st1).2
    | some _ => stringF fuel (advance st).2
    | none => some (stringEnd st)
where
  /-- Epilogue of Scanner.string after the loop exits. -/
  stringEnd (st : ScanSt) : Except ScannerError ScanSt :=
    if is_at_end st then
      Except.error (ScannerError.UnterminatedString st.line)
    else
      let st1 := (advance st).2
      let lexeme := slice st1 (st1.start + 1) (st1.current - 1)
      Except.ok { st1 with
        tokens := st1.tokens ++
          [{ kind := TokenType.String
             lexeme := slice st1 st1.start st1.current
             literal := some (Lit.Str lexeme)
             line := st1.line }] }

end Scanner

/-- Source characters of the four-character string literal whose body holds
an embedded newline: a double quote, the letter a, a newline, the letter b,
and the closing double quote. -/
def c4source : List Char := ['"', 'a', '\n', 'b', '"']

/-- Scanner state just after scan_token consumed the opening quote of the
literal above and dispatched to fn string: start is at the quote, current
is one past it. -/
def c4state : ScanSt :=
  { source := c4source, start := 0, current := 1, line := 1, tokens := [] }

/-! ## Runtime values (interpreter/interp.rs enum Value, function/func.rs
struct Function, class/lox_class.rs struct LoxClass, instance/inst.rs
struct LoxInstance).  Classes are immutable after construction and are
embedded by value; instances are mutable and shared, so a Value holds an
instance index into the interpreter arena; a function holds the index of
its closure environment.  The struct named Function in the source is
LoxFunction here, since Function is taken in Lean.  The native clock
callable appears as its own constructor VClock. -/

structure LoxFunction where
  declaration : FunctionDecl
  closure : Nat
  is_initializer : Bool
deriving Repr

/-- Class object (class/lox_class.rs).  A single-constructor inductive
because structures cannot recurse through the superclass field. -/
inductive LoxClass where
  | mk (name : String) (superclass : Option LoxClass)
      (methods : List (String × LoxFunction))
deriving Repr

def LoxClass.name : LoxClass → String
  | .mk n _ _ => n

def LoxClass.superclass : LoxClass → Option LoxClass
  | .mk _ s _ => s

def LoxClass.methods : LoxClass → List (String × LoxFunction)
  | .mk _ _ m => m

/-- HashMap lookup on an association list (first binding for the key).
Instantiated at String keys for environments, fields and method tables,
and at Nat keys for the node-identity depth table. -/
def lookupVal {κ α : Type} [DecidableEq κ] : List (κ × α) → κ → Option α
  | [], _ => none
  | (k, v) :: rest, key => if k = key then some v else lookupVal rest key

/-- HashMap insert on an association list: replaces in place when the key
is present, appends otherwise; the second component is the previous value,
mirroring the return of HashMap insert in Rust. -/
def insertVal {κ α : Type} [DecidableEq κ] : List (κ × α) → κ → α → List (κ × α) × Option α
  | [], key, v => ([(key, v)], none)
  | (k, w) :: rest, key, v =>
    if k = key then ((k, v) :: rest, some w)
    else
      let r := insertVal rest key v
      ((k, w) :: r.1, r.2)

/-- LoxClass.find_method: the method table, then the superclass chain. -/
def LoxClass.find_method : LoxClass → String → Option LoxFunction
  | .mk _ sup methods, name =>
    match lookupVal methods name with
    | some m => some m
    | none =>
      match sup with
      | some s => LoxClass.find_method s name
      | none => none

/-- Runtime value (interpreter/interp.rs enum Value).  Constructor names
carry a V prefix because String, Bool and Nil would shadow core names. -/
inductive Value where
  | VString (s : String)
  | VNumber (n : Int)
  | VBool (b : Bool)
  | VNil
  | VCallable (f : LoxFunction)
  | VClock
  | VClass (c : LoxClass)
  | VInstance (i : Nat)
deriving Repr

/-- Runtime errors (error/err.rs enum RuntimeError); the Io payload is
dropped as for ScannerError.  ReturnException and BreakException are the
two control-flow pseudo-errors. -/
inductive RuntimeError where
  | Io
  | UnaryMinus (lexeme : String) (line : Nat)
  | BinaryMinus (lexeme : String) (line : Nat)
  | BinaryPlus (lexeme : String) (line : Nat)
  | BinaryMult (lexeme : String) (line : Nat)
  | BinaryDiv (lexeme : String) (line : Nat)
  | BinaryComp (lexeme : String) (line : Nat)
  | BinaryDBZ (line : Nat)
  | UndefinedVariable (found : String)
  | BreakException
  | MutationError (lexeme : String) (line : Nat)
  | FunctionError (lexeme : String) (line : Nat) (message : String)
  | ReturnException (v : Value)
  | TypeError (msg : String) (line : Nat)
deriving Repr

/-! ## Environment arena (environment/env.rs).  An environment is a value
map plus an optional enclosing reference; SharedEnv, the Rc-RefCell
wrapper, is embedded as an index into the list of environments held by the
interpreter state.  An index that misses the arena cannot arise from the
source (every SharedEnv is a live Rc); the functions below treat it like a
missing binding or a missing enclosing link, keeping them total. -/

structure EnvData where
  enclosing : Option Nat
  values : List (String × Value)
deriving Repr

/-- Instance object (instance/inst.rs struct LoxInstance). -/
structure InstData where
  klass : LoxClass
  fields : List (String × Value)
deriving Repr

namespace Environment

/-- Environment.define: unconditional insert into the scope at eid. -/
def define (envs : List EnvData) (eid : Nat) (name : String) (val : Value) :
    List EnvData :=
  match envs.get? eid with
  | none => envs
  | some ed => envs.set eid { ed with values := (insertVal ed.values name val).1 }

/-- Environment.get (environment/env.rs lines 108 to 118): look up in this
scope, recurse into the enclosing scope, fail with UndefinedVariable at
the chain end.  Fueled because the chain walk is not structural. -/
def get : Nat → List EnvData → Nat → Token → Option (Except RuntimeError Value)
  | 0, _, _, _ => none
  | fuel+1, envs, eid, name =>
    match envs.get? eid with
    | none => none
    | some ed =>
      match lookupVal ed.values name.lexeme with
      | some v => some (Except.ok v)
      | none =>
        match ed.enclosing with
        | some parent => get fuel envs parent name
        | none => some (Except.error (RuntimeError.UndefinedVariable name.lexeme))

/-- Environment.assign (environment/env.rs lines 120 to 139).  The source
tests membership with values.insert(key, val).is_some(), so the insertion
into the current scope happens unconditionally before the test; when the
key was absent the walk continues into the enclosing scope with the
current scope already holding the new binding, and reaching the chain end
yields UndefinedVariable. -/
def assign : Nat → List EnvData → Nat → Token → Value →
    Option (Except RuntimeError Value × List EnvData)
  | 0, _, _, _, _ => none
  | fuel+1, envs, eid, name, val =>
    match envs.get? eid with
    | none => none
    | some ed =>
      let r := insertVal ed.values name.lexeme val
      let envs1 := envs.set eid { ed with values := r.1 }
      match r.2 with
      | some _ => some (Except.ok val, envs1)
      | none =>
        match ed.enclosing with
        | some parent => assign fuel envs1 parent name val
        | none =>
          some (Except.error (RuntimeError.UndefinedVariable name.lexeme), envs1)

/-- Environment.ancestor (environment/env.rs lines 50 to 65): follow the
enclosing link distance times; none when the chain ends first.  Structural
on the distance, exactly like the for loop of the source. -/
def ancestor (envs : List EnvData) : Nat → Nat → Option Nat
  | eid, 0 => some eid
  | eid, d+1 =>
    match envs.get? eid with
    | none => none
    | some ed =>
      match ed.enclosing with
      | some parent => ancestor envs parent d
      | none => none

/-- Environment.get_at: resolve the ancestor, then run the chain-walking
get from it; UndefinedVariable when the ancestor is missing. -/
def get_at (fuel : Nat) (envs : List EnvData) (eid distance : Nat) (name : Token) :
    Option (Except RuntimeError Value) :=
  match ancestor envs eid distance with
  | some target => get fuel envs target name
  | none => some (Except.error (RuntimeError.UndefinedVariable name.lexeme))

/-- Environment.get_at_string: resolve the ancestor, then a direct lookup
in that single scope (no chain walk); UndefinedVariable when either the
ancestor or the binding is missing. -/
def get_at_string (envs : List EnvData) (eid distance : Nat) (name : String) :
    Except RuntimeError Value :=
  match ancestor envs eid distance with
  | some target =>
    match envs.get? target with
    | some ed =>
      match lookupVal ed.values name with
      | some v => Except.ok v
      | none => Except.error (RuntimeError.UndefinedVariable name)
    | none => Except.error (RuntimeError.UndefinedVariable name)
  | none => Except.error (RuntimeError.UndefinedVariable name)

/-- Environment.assign_at: resolve the ancestor, then run the
chain-walking assign from it; UndefinedVariable when the ancestor is
missing. -/
def assign_at (fuel : Nat) (envs : List EnvData) (eid distance : Nat)
    (name : Token) (val : Value) :
    Option (Except RuntimeError Value × List EnvData) :=
  match ancestor envs eid distance with
  | some scope => assign fuel envs scope name val
  | none =>
    some (Except.error (RuntimeError.UndefinedVariable name.lexeme), envs)

end Environment

/-! ## Claims about the environment operations (C3 and C10). -/

/-- Identifier token named x, used by the environment claims. -/
def xTok : Token := { kind := TokenType.Identifier, lexeme := "x", literal := none, line := 1 }

/-- Identifier token named y, used by the environment claims. -/
def yTok : Token := { kind := TokenType.Identifier, lexeme := "y", literal := none, line := 1 }

/-- Two-scope chain for C3: index 0 is the global scope holding x bound to
the number 1, index 1 is an empty inner scope enclosed by it. -/
def c3envs : List EnvData :=
  [ { enclosing := none, values := [("x", Value.VNumber 1)] },
    { enclosing := some 0, values := [] } ]

/-- Enclosing link of the scope at eid, none at the chain end (and for an
index outside the arena, which the source cannot produce). -/
def enclosingOf (envs : List EnvData) (eid : Nat) : Option Nat :=
  match envs.get? eid with
  | some ed => ed.enclosing
  | none => none

/-! ## Interpreter state (interpreter/interp.rs struct Interpreter).  The
locals field is the resolver-written depth table, keyed by nodeId; output
collects what println printed, one line per Print statement. -/

structure Interp where
  envs : List EnvData
  insts : List InstData
  globals : Nat
  environment : Nat
  locals : List (Nat × Nat)
  output : List String
deriving Repr

namespace Interp

/-- Interpreter::new: a fresh global environment holding the clock native,
with environment starting equal to globals and an empty depth table. -/
def new : Interp :=
  { envs := [{ enclosing := none, values := [("clock", Value.VClock)] }],
    insts := [], globals := 0, environment := 0, locals := [], output := [] }

/-- Environment::from_enclosing: allocate a fresh empty scope whose
enclosing link is the given scope; returns its index. -/
def from_enclosing (st : Interp) (enc : Nat) : Nat × Interp :=
  (st.envs.length,
   { st with envs := st.envs ++ [{ enclosing := some enc, values := [] }] })

end Interp

/-- Truthiness (interp.rs is_truthy): nil and false are falsy, everything
else is truthy. -/
def is_truthy : Value → Bool
  | .VNil => false
  | .VBool b => b
  | _ => true

/-- Value equality (interp.rs, PartialEq for Value): structural on the
primitives, false for everything else, including any pair of callables,
classes or instances. -/
def valueEq : Value → Value → Bool
  | .VString a, .VString b => a == b
  | .VNumber a, .VNumber b => a == b
  | .VBool a, .VBool b => a == b
  | .VNil, .VNil => true
  | _, _ => false

/-- Display form of a value (interp.rs, Display for Value).  A function
shows through its Debug form fn angle brackets; the clock native shows as
its Debug name; an instance shows its class name followed by the word
instance. -/
def Value.display (st : Interp) : Value → String
  | .VString s => s
  | .VNumber n => toString n
  | .VBool b => if b then "true" else "false"
  | .VNil => "nil"
  | .VCallable f =>
    "<fn " ++ (match f.declaration.name with
               | some t => t.lexeme
               | none => "<anonymous>") ++ ">"
  | .VClock => "Clock"
  | .VClass c => c.name
  | .VInstance i =>
    match st.insts.get? i with
    | some inst => inst.klass.name ++ " instance"
    | none => " instance"

/-- Function::arity: the declared parameter count. -/
def LoxFunction.arity (f : LoxFunction) : Nat :=
  f.declaration.params.length

/-- LoxClass::arity: the arity of init when defined (on the class or a
superclass), zero otherwise. -/
def LoxClass.arity (c : LoxClass) : Nat :=
  match c.find_method "init" with
  | some i => i.arity
  | none => 0

/-- Function::bind (func.rs lines 47 to 57): a fresh callable whose
closure is a new scope enclosing the original closure and defining this
as the instance. -/
def LoxFunction.bind (f : LoxFunction) (instId : Nat) (st : Interp) :
    LoxFunction × Interp :=
  let envId := st.envs.length
  let thisEnv : EnvData :=
    { enclosing := some f.closure,
      values := [("this", Value.VInstance instId)] }
  let st1 := { st with envs := st.envs ++ [thisEnv] }
  ({ declaration := f.declaration, closure := envId,
     is_initializer := f.is_initializer }, st1)

/-- LoxInstance::get (inst.rs): a field when present, otherwise a method
of the class bound to this instance, otherwise a TypeError about an
undefined property.  An instance index outside the arena cannot arise from
the source and reports the same TypeError. -/
def LoxInstance.get (st : Interp) (instId : Nat) (name : Token) :
    Except RuntimeError Value × Interp :=
  match st.insts.get? instId with
  | some inst =>
    match lookupVal inst.fields name.lexeme with
    | some v => (Except.ok v, st)
    | none =>
      match inst.klass.find_method name.lexeme with
      | some m =>
        let r := m.bind instId st
        (Except.ok (Value.VCallable r.1), r.2)
      | none =>
        (Except.error (RuntimeError.TypeError
          ("Undefined property " ++ name.lexeme ++ ".") name.line), st)
  | none =>
    (Except.error (RuntimeError.TypeError
      ("Undefined property " ++ name.lexeme ++ ".") name.line), st)

/-- LoxInstance::set (inst.rs): store into the fields map. -/
def LoxInstance.set (st : Interp) (instId : Nat) (name : Token) (v : Value) :
    Interp :=
  match st.insts.get? instId with
  | some inst =>
    let inst1 := { inst with fields := (insertVal inst.fields name.lexeme v).1 }
    { st with insts := st.insts.set instId inst1 }
  | none => st

/-- Method-map construction inside evaluate_class (interp.rs lines 266 to
276): each declared method becomes a callable closing over the given
scope, flagged as an initializer exactly when its name is init; unnamed
declarations are skipped. -/
def methodMap (envId : Nat) : List FunctionDecl → List (String × LoxFunction) →
    List (String × LoxFunction)
  | [], acc => acc
  | decl :: rest, acc =>
    let fn : LoxFunction :=
      { declaration := decl, closure := envId,
        is_initializer := decl.name.map Token.lexeme == some "init" }
    match decl.name with
    | some nm => methodMap envId rest (insertVal acc nm.lexeme fn).1
    | none => methodMap envId rest acc

/-- Parameter binding at call entry (func.rs lines 68 to 70): zip the
parameters with the arguments and define each in order. -/
def defineParams : List Token → List Value → List (String × Value) →
    List (String × Value)
  | p :: ps, v :: vs, acc => defineParams ps vs (insertVal acc p.lexeme v).1
  | _, _, acc => acc

/-- evaluate_literal (interp.rs lines 388 to 396). -/
def evaluate_literal : Lit → Value
  | .Num n => Value.VNumber n
  | .Str s => Value.VString s
  | .True => Value.VBool true
  | .False => Value.VBool false
  | .Nil => Value.VNil

/-- evaluate_lambda (interp.rs lines 298 to 313): an anonymous callable
capturing the current environment. -/
def evaluate_lambda (params : List Token) (body : List Stmt) (st : Interp) :
    Except RuntimeError Value × Interp :=
  (Except.ok (Value.VCallable
    { declaration := .mk none params body, closure := st.environment,
      is_initializer := false }), st)

/-- evaluate_function (interp.rs lines 155 to 169): build the callable
closing over the current environment and define it under its name. -/
def evaluate_function (decl : FunctionDecl) (st : Interp) :
    Except RuntimeError Unit × Interp :=
  let fname := match decl.name with
               | some t => t.lexeme
               | none => "<anonymous>"
  let fn : Value := Value.VCallable
    { declaration := decl, closure := st.environment, is_initializer := false }
  (Except.ok (),
   { st with envs := Environment.define st.envs st.environment fname fn })

/-- evaluate_mutation (interp.rs lines 507 to 556): the operand must be a
Variable whose current value (looked up by the chain walk from the current
environment, not through the depth table) is a number; the new value is
assigned back through the chain walk and the result is the old value for
a postfix operator, the new one for a prefix operator.  The source passes
a panic-free fuel bound of one more than the arena size to the chain
walks; an unreachable operator kind is the source unreachable panic. -/
def evaluate_mutation (operator : Token) (operand : Expr) (post : Bool)
    (st : Interp) : Option (Except RuntimeError Value × Interp) :=
  match operand with
  | .Variable _ name =>
    match Environment.get (st.envs.length + 1) st.envs st.environment name with
    | none => none
    | some (.error e) => some (.error e, st)
    | some (.ok current_value) =>
      match current_value with
      | .VNumber n =>
        let new_val : Int := match operator.kind with
                             | .Increment => n + 1
                             | _ => n - 1
        match operator.kind with
        | .Increment | .Decrement =>
          match Environment.assign (st.envs.length + 1) st.envs
              st.environment name (Value.VNumber new_val) with
          | none => none
          | some (.error e, envs1) => some (.error e, { st with envs := envs1 })
          | some (.ok _, envs1) =>
            some (.ok (Value.VNumber (if post then n else new_val)),
                  { st with envs := envs1 })
        | _ => none
      | _ => some (.error (RuntimeError.MutationError operator.lexeme
                    operator.line), st)
  | _ => some (.error (RuntimeError.MutationError operator.lexeme
                operator.line), st)

/-- evaluate_super (interp.rs lines 445 to 485): the depth of this node
gives the scope of super; this lives one scope below.  A node with no
resolved depth reports a TypeError about super being undefined.  The
subtraction distance minus one is a usize subtraction in the source; at
distance zero the source build would panic on underflow while Nat
subtraction clamps, a corner no reachable execution hits because the
resolver writes a positive depth for every super node it accepts. -/
def evaluate_super (nodeId : Nat) (keyword : Token) ( method : Token)
    (st : Interp) : Except RuntimeError Value × Interp :=
  match lookupVal st.locals nodeId with
  | none =>
    (Except.error (RuntimeError.TypeError "Undefined variable 'super'."
      keyword.line), st)
  | some distance =>
    match Environment.get_at_string st.envs st.environment distance "super" with
    | .error e => (.error e, st)
    | .ok sv =>
      match sv with
      | .VClass superclass =>
        match Environment.get_at_string st.envs st.environment
            (distance - 1) "this" with
        | .error e => (.error e, st)
        | .ok ov =>
          match ov with
          | .VInstance obj =>
            match superclass.find_method method.lexeme with
            | some m =>
              let r := m.bind obj st
              (Except.ok (Value.VCallable r.1), r.2)
            | none =>
              (Except.error (RuntimeError.UndefinedVariable method.lexeme), st)
          | _ => (Except.error (RuntimeError.TypeError
                   "'this' must be instance." keyword.line), st)
      | _ => (Except.error (RuntimeError.TypeError "super must be a class."
               keyword.line), st)

/-! ## The evaluator (interpreter/interp.rs, function/func.rs,
class/lox_class.rs).  One mutual cluster, structurally recursive on a
shared fuel that every call decrements; none is fuel exhaustion (or an
unreachable panic arm).  Chain walks inside a body use the self-calibrating
bound of one more than the arena size, which the allocation discipline of
the arena always satisfies. -/

mutual

/-- Interpreter::execute (interp.rs lines 171 to 221): statement dispatch.
Return raises ReturnException carrying the value, Break raises
BreakException, Print writes the display form of the value. -/
def execute : Nat → Stmt → Interp → Option (Except RuntimeError Unit × Interp)
  | 0, _, _ => none
  | fuel+1, stmt, st =>
    match stmt with
    | .Block statements =>
      let r := st.from_enclosing st.environment
      execute_block fuel statements r.1 r.2
    | .Class _ _ _ =>
      match evaluate_class fuel stmt st with
      | none => none
      | some (.error e, st1) => some (.error e, st1)
      | some (.ok _, st1) => some (.ok (), st1)
    | .Expression e =>
      match evaluate fuel e st with
      | none => none
      | some (.error er, st1) => some (.error er, st1)
      | some (.ok _, st1) => some (.ok (), st1)
    | .Function decl => some (evaluate_function decl st)
    | .If condition then_branch else_branch =>
      match evaluate_if_statement fuel condition then_branch else_branch st with
      | none => none
      | some (.error e, st1) => some (.error e, st1)
      | some (.ok _, st1) => some (.ok (), st1)
    | .Print e =>
      match evaluate fuel e st with
      | none => none
      | some (.error er, st1) => some (.error er, st1)
      | some (.ok v, st1) =>
        some (.ok (), { st1 with output := st1.output ++ [Value.display st1 v] })
    | .Return _ value =>
      match value with
      | some e =>
        match evaluate fuel e st with
        | none => none
        | some (.error er, st1) => some (.error er, st1)
        | some (.ok v, st1) =>
          some (.error (RuntimeError.ReturnException v), st1)
      | none => some (.error (RuntimeError.ReturnException Value.VNil), st)
    | .While condition body =>
      match evaluate_while fuel condition body st with
      | none => none
      | some (.error e, st1) => some (.error e, st1)
      | some (.ok _, st1) => some (.ok (), st1)
    | .Break _ => some (.error RuntimeError.BreakException, st)
    | .Var name initializer =>
      match evaluate_var_decl fuel name initializer st with
      | none => none
      | some (.error e, st1) => some (.error e, st1)
      | some (.ok _, st1) => some (.ok (), st1)

/-- Statement sequencing: the loop of Interpreter::interpret and the
try_for_each of execute_block, stopping at the first error. -/
def executeStmts : Nat → List Stmt → Interp →
    Option (Except RuntimeError Unit × Interp)
  | 0, _, _ => none
  | _+1, [], st => some (.ok (), st)
  | fuel+1, s :: rest, st =>
    match execute fuel s st with
    | none => none
    | some (.error e, st1) => some (.error e, st1)
    | some (.ok _, st1) => executeStmts fuel rest st1

/-- Interpreter::execute_block (interp.rs lines 227 to 241): remember the
current environment, run the statements under the new one, and restore the
remembered environment whatever the result was. -/
def execute_block : Nat → List Stmt → Nat → Interp →
    Option (Except RuntimeError Unit × Interp)
  | 0, _, _, _ => none
  | fuel+1, statements, new_env, st =>
    let previous := st.environment
    match executeStmts fuel statements { st with environment := new_env } with
    | none => none
    | some (result, st1) => some (result, { st1 with environment := previous })

/-- Interpreter::evaluate (interp.rs lines 92 to 153): expression
dispatch.  Variable and This consult the depth table through the nodeId;
a hit reads through get_at at the recorded distance, a miss reads the
globals map. -/
def evaluate : Nat → Expr → Interp → Option (Except RuntimeError Value × Interp)
  | 0, _, _ => none
  | fuel+1, expr, st =>
    match expr with
    | .Lambda params body => some (evaluate_lambda params body st)
    | .Literal l => some (.ok (evaluate_literal l), st)
    | .Unary operator right => evaluate_unary fuel operator right st
    | .Mutate operator operand post => evaluate_mutation operator operand post st
    | .Call callee paren args => evaluate_call fuel callee paren args st
    | .Assign nodeId name value => evaluate_assignment fuel nodeId name value st
    | .Binary left operator right => evaluate_binary fuel left operator right st
    | .Variable nodeId name =>
      match lookupVal st.locals nodeId with
      | some distance =>
        match Environment.get_at (st.envs.length + 1) st.envs st.environment
            distance name with
        | none => none
        | some r => some (r, st)
      | none =>
        match Environment.get (st.envs.length + 1) st.envs st.globals name with
        | none => none
        | some r => some (r, st)
    | .Get object name => evaluate_get fuel object name st
    | .Set object name value => evaluate_set fuel object name value st
    | .Super nodeId keyword m => some (evaluate_super nodeId keyword m st)
    | .This nodeId keyword =>
      match lookupVal st.locals nodeId with
      | some distance =>
        match Environment.get_at (st.envs.length + 1) st.envs st.environment
            distance keyword with
        | none => none
        | some r => some (r, st)
      | none =>
        match Environment.get (st.envs.length + 1) st.envs st.globals keyword with
        | none => none
        | some r => some (r, st)
    | .Grouping inner => evaluate fuel inner st
    | .Ternary condition true_expr false_expr =>
      evaluate_ternary fuel condition true_expr false_expr st
    | .Logical left operator right => evaluate_logical fuel left operator right st

/-- evaluate_class (interp.rs lines 243 to 296): define the name as nil;
evaluate the superclass expression when present (a non-class value is a
TypeError) and push a scope binding super to it; build the method map over
the current scope; assign the finished class into the binding of the name;
pop the super scope when one was pushed. -/
def evaluate_class : Nat → Stmt → Interp →
    Option (Except RuntimeError Value × Interp)
  | 0, _, _ => none
  | fuel+1, stmt, st =>
    match stmt with
    | .Class name superclass methods =>
      let st0 := { st with
        envs := Environment.define st.envs st.environment name.lexeme Value.VNil }
      match superclass with
      | none =>
        let method_map := methodMap st0.environment methods []
        let klass := LoxClass.mk name.lexeme none method_map
        match Environment.assign (st0.envs.length + 1) st0.envs
            st0.environment name (Value.VClass klass) with
        | none => none
        | some (.error e, envs1) => some (.error e, { st0 with envs := envs1 })
        | some (.ok _, envs1) => some (.ok Value.VNil, { st0 with envs := envs1 })
      | some super_expr =>
        match evaluate fuel super_expr st0 with
        | none => none
        | some (.error e, st1) => some (.error e, st1)
        | some (.ok sv, st1) =>
          match sv with
          | .VClass class_obj =>
            let newEnvId := st1.envs.length
            let superEnv : EnvData :=
              { enclosing := some st1.environment,
                values := [("super", Value.VClass class_obj)] }
            let st2 : Interp :=
              { st1 with envs := st1.envs ++ [superEnv], environment := newEnvId }
            let method_map := methodMap st2.environment methods []
            let klass := LoxClass.mk name.lexeme (some class_obj) method_map
            match Environment.assign (st2.envs.length + 1) st2.envs
                st2.environment name (Value.VClass klass) with
            | none => none
            | some (.error e, envs3) => some (.error e, { st2 with envs := envs3 })
            | some (.ok _, envs3) =>
              let st3 := { st2 with envs := envs3 }
              let st4 := match enclosingOf st3.envs st3.environment with
                         | some p => { st3 with environment := p }
                         | none => st3
              some (.ok Value.VNil, st4)
          | _ =>
            some (.error (RuntimeError.TypeError "Superclass must be a class."
              name.line), st1)
    | _ => some (.error (RuntimeError.TypeError "Expected class statement" 0), st)

/-- evaluate_var_decl (interp.rs lines 315 to 329): the initializer value,
or nil, defined in the current environment. -/
def evaluate_var_decl : Nat → Token → Option Expr → Interp →
    Option (Except RuntimeError Value × Interp)
  | 0, _, _, _ => none
  | fuel+1, name, initializer, st =>
    match initializer with
    | some e =>
      match evaluate fuel e st with
      | none => none
      | some (.error er, st1) => some (.error er, st1)
      | some (.ok value, st1) =>
        some (.ok Value.VNil, { st1 with
          envs := Environment.define st1.envs st1.environment name.lexeme value })
    | none =>
      some (.ok Value.VNil, { st with
        envs := Environment.define st.envs st.environment name.lexeme Value.VNil })

/-- evaluate_while (interp.rs lines 331 to 347): test, run the body,
repeat; a BreakException from the body ends the loop normally, any other
error propagates. -/
def evaluate_while : Nat → Expr → Stmt → Interp →
    Option (Except RuntimeError Value × Interp)
  | 0, _, _, _ => none
  | fuel+1, condition, body, st =>
    match evaluate fuel condition st with
    | none => none
    | some (.error e, st1) => some (.error e, st1)
    | some (.ok v, st1) =>
      if is_truthy v then
        match execute fuel body st1 with
        | none => none
        | some (.error RuntimeError.BreakException, st2) =>
          some (.ok Value.VNil, st2)
        | some (.error e, st2) => some (.error e, st2)
        | some (.ok _, st2) => evaluate_while fuel condition body st2
      else some (.ok Value.VNil, st1)

/-- evaluate_if_statement (interp.rs lines 353 to 368). -/
def evaluate_if_statement : Nat → Expr → Stmt → Option Stmt → Interp →
    Option (Except RuntimeError Value × Interp)
  | 0, _, _, _, _ => none
  | fuel+1, condition, then_b, else_b, st =>
    match evaluate fuel condition st with
    | none => none
    | some (.error e, st1) => some (.error e, st1)
    | some (.ok v, st1) =>
      if is_truthy v then
        match execute fuel then_b st1 with
        | none => none
        | some (.error e, st2) => some (.error e, st2)
        | some (.ok _, st2) => some (.ok Value.VNil, st2)
      else
        match else_b with
        | some else_stmt =>
          match execute fuel else_stmt st1 with
          | none => none
          | some (.error e, st2) => some (.error e, st2)
          | some (.ok _, st2) => some (.ok Value.VNil, st2)
        | none => some (.ok Value.VNil, st1)

/-- evaluate_assignment (interp.rs lines 370 to 386): evaluate the value,
then assign_at at the resolved distance when the depth table has this
node, else assign on the globals; the expression yields the value. -/
def evaluate_assignment : Nat → Nat → Token → Expr → Interp →
    Option (Except RuntimeError Value × Interp)
  | 0, _, _, _, _ => none
  | fuel+1, nodeId, name, value_expr, st =>
    match evaluate fuel value_expr st with
    | none => none
    | some (.error e, st1) => some (.error e, st1)
    | some (.ok value, st1) =>
      match lookupVal st1.locals nodeId with
      | some distance =>
        match Environment.assign_at (st1.envs.length + 1) st1.envs
            st1.environment distance name value with
        | none => none
        | some (.error e, envs2) => some (.error e, { st1 with envs := envs2 })
        | some (.ok _, envs2) => some (.ok value, { st1 with envs := envs2 })
      | none =>
        match Environment.assign (st1.envs.length + 1) st1.envs st1.globals
            name value with
        | none => none
        | some (.error e, envs2) => some (.error e, { st1 with envs := envs2 })
        | some (.ok _, envs2) => some (.ok value, { st1 with envs := envs2 })

/-- evaluate_logical (interp.rs lines 398 to 422): short-circuiting or and
and, yielding the operand value itself. -/
def evaluate_logical : Nat → Expr → Token → Expr → Interp →
    Option (Except RuntimeError Value × Interp)
  | 0, _, _, _, _ => none
  | fuel+1, lhs, operator, rhs, st =>
    match evaluate fuel lhs st with
    | none => none
    | some (.error e, st1) => some (.error e, st1)
    | some (.ok left, st1) =>
      match operator.kind with
      | .Or => if is_truthy left then some (.ok left, st1) else evaluate fuel rhs st1
      | .And => if is_truthy left then evaluate fuel rhs st1 else some (.ok left, st1)
      | _ => none

/-- evaluate_set (interp.rs lines 424 to 443): the object must evaluate to
an instance; the value is stored in its fields and returned. -/
def evaluate_set : Nat → Expr → Token → Expr → Interp →
    Option (Except RuntimeError Value × Interp)
  | 0, _, _, _, _ => none
  | fuel+1, object, name, value, st =>
    match evaluate fuel object st with
    | none => none
    | some (.error e, st1) => some (.error e, st1)
    | some (.ok obj, st1) =>
      match obj with
      | .VInstance i =>
        match evaluate fuel value st1 with
        | none => none
        | some (.error e, st2) => some (.error e, st2)
        | some (.ok val, st2) => some (.ok val, LoxInstance.set st2 i name val)
      | _ =>
        some (.error (RuntimeError.TypeError "Invalid set target." name.line), st1)

/-- evaluate_unary (interp.rs lines 487 to 505): minus requires a number,
bang negates truthiness; any other operator kind is the unreachable
panic. -/
def evaluate_unary : Nat → Token → Expr → Interp →
    Option (Except RuntimeError Value × Interp)
  | 0, _, _, _ => none
  | fuel+1, operator, right, st =>
    match evaluate fuel right st with
    | none => none
    | some (.error e, st1) => some (.error e, st1)
    | some (.ok right_val, st1) =>
      match operator.kind with
      | .Minus =>
        match right_val with
        | .VNumber n => some (.ok (Value.VNumber (-n)), st1)
        | _ => some (.error (RuntimeError.UnaryMinus operator.lexeme
                      operator.line), st1)
      | .Bang => some (.ok (Value.VBool (!is_truthy right_val)), st1)
      | _ => none

/-- evaluate_binary (interp.rs lines 558 to 618).  Both operands are
evaluated up front; the comma arm then evaluates both of them a second
time, exactly as the source does, and yields the second evaluation of the
right operand.  Division is exact on the integer inputs considered here;
division by zero is BinaryDBZ.  An operator kind outside the listed ones
is the unreachable panic. -/
def evaluate_binary : Nat → Expr → Token → Expr → Interp →
    Option (Except RuntimeError Value × Interp)
  | 0, _, _, _, _ => none
  | fuel+1, left, operator, right, st =>
    match evaluate fuel left st with
    | none => none
    | some (.error e, st1) => some (.error e, st1)
    | some (.ok left_val, st1) =>
      match evaluate fuel right st1 with
      | none => none
      | some (.error e, st2) => some (.error e, st2)
      | some (.ok right_val, st2) =>
        let lexeme := operator.lexeme
        let line := operator.line
        match operator.kind with
        | .Comma =>
          match evaluate fuel left st2 with
          | none => none
          | some (.error e, st3) => some (.error e, st3)
          | some (.ok _, st3) => evaluate fuel right st3
        | .Plus =>
          match left_val, right_val with
          | .VNumber l, .VNumber r => some (.ok (.VNumber (l + r)), st2)
          | .VString l, .VString r => some (.ok (.VString (l ++ r)), st2)
          | .VString l, .VNumber r => some (.ok (.VString (l ++ toString r)), st2)
          | .VNumber l, .VString r => some (.ok (.VString (toString l ++ r)), st2)
          | _, _ => some (.error (RuntimeError.BinaryPlus lexeme line), st2)
        | .Minus =>
          match left_val, right_val with
          | .VNumber l, .VNumber r => some (.ok (.VNumber (l - r)), st2)
          | _, _ => some (.error (RuntimeError.BinaryMinus lexeme line), st2)
        | .Star =>
          match left_val, right_val with
          | .VNumber l, .VNumber r => some (.ok (.VNumber (l * r)), st2)
          | _, _ => some (.error (RuntimeError.BinaryMult lexeme line), st2)
        | .Slash =>
          match left_val, right_val with
          | .VNumber l, .VNumber r =>
            if r = 0 then some (.error (RuntimeError.BinaryDBZ line), st2)
            else some (.ok (.VNumber (l / r)), st2)
          | _, _ => some (.error (RuntimeError.BinaryDiv lexeme line), st2)
        | .EqualEqual => some (.ok (.VBool (valueEq left_val right_val)), st2)
        | .Greater =>
          match left_val, right_val with
          | .VNumber l, .VNumber r => some (.ok (.VBool (decide (l > r))), st2)
          | _, _ => some (.error (RuntimeError.BinaryComp lexeme line), st2)
        | .Less =>
          match left_val, right_val with
          | .VNumber l, .VNumber r => some (.ok (.VBool (decide (l < r))), st2)
          | _, _ => some (.error (RuntimeError.BinaryComp lexeme line), st2)
        | .GreaterEqual =>
          match left_val, right_val with
          | .VNumber l, .VNumber r => some (.ok (.VBool (decide (l ≥ r))), st2)
          | _, _ => some (.error (RuntimeError.BinaryComp lexeme line), st2)
        | .LessEqual =>
          match left_val, right_val with
          | .VNumber l, .VNumber r => some (.ok (.VBool (decide (l ≤ r))), st2)
          | _, _ => some (.error (RuntimeError.BinaryComp lexeme line), st2)
        | .BangEqual => some (.ok (.VBool (!valueEq left_val right_val)), st2)
        | _ => none

/-- evaluate_call (interp.rs lines 620 to 662): evaluate the callee, then
the arguments left to right; dispatch on the callee value with an arity
check; anything not callable is a FunctionError.  The source formats the
closing-paren token into the error; the model keeps its lexeme. -/
def evaluate_call : Nat → Expr → Token → List Expr → Interp →
    Option (Except RuntimeError Value × Interp)
  | 0, _, _, _, _ => none
  | fuel+1, callee, paren, args, st =>
    match evaluate fuel callee st with
    | none => none
    | some (.error e, st1) => some (.error e, st1)
    | some (.ok calleeV, st1) =>
      match evalArgs fuel args st1 with
      | none => none
      | some (.error e, st2) => some (.error e, st2)
      | some (.ok arguments, st2) =>
        match calleeV with
        | .VCallable f =>
          if arguments.length ≠ f.arity then
            some (.error (RuntimeError.FunctionError paren.lexeme paren.line
              "Can only call functions and classes."), st2)
          else LoxFunction.call fuel f arguments st2
        | .VClock =>
          if arguments.length ≠ 0 then
            some (.error (RuntimeError.FunctionError paren.lexeme paren.line
              "Can only call functions and classes."), st2)
          else some (.ok (Value.VNumber 0), st2)
        | .VClass c =>
          if arguments.length ≠ c.arity then
            some (.error (RuntimeError.FunctionError paren.lexeme paren.line
              "Ensure your function call matches the function arity."), st2)
          else LoxClass.call fuel c arguments st2
        | _ =>
          some (.error (RuntimeError.FunctionError paren.lexeme paren.line
            "Can only call functions and classes."), st2)

/-- Argument evaluation, left to right, of evaluate_call. -/
def evalArgs : Nat → List Expr → Interp →
    Option (Except RuntimeError (List Value) × Interp)
  | 0, _, _ => none
  | _+1, [], st => some (.ok [], st)
  | fuel+1, a :: rest, st =>
    match evaluate fuel a st with
    | none => none
    | some (.error e, st1) => some (.error e, st1)
    | some (.ok v, st1) =>
      match evalArgs fuel rest st1 with
      | none => none
      | some (.error e, st2) => some (.error e, st2)
      | some (.ok vs, st2) => some (.ok (v :: vs), st2)

/-- Function::call (func.rs lines 60 to 105): a fresh scope enclosing the
closure binds the parameters; the body runs under it with the previous
environment restored at the end whatever happened.  A ReturnException from
the body yields its value, or the this at distance zero in the closure
when the callable is an initializer; normal completion yields nil, again
replaced by this for an initializer. -/
def LoxFunction.call : Nat → LoxFunction → List Value → Interp →
    Option (Except RuntimeError Value × Interp)
  | 0, _, _, _ => none
  | fuel+1, f, args, st =>
    let envId := st.envs.length
    let callEnv : EnvData :=
      { enclosing := some f.closure,
        values := defineParams f.declaration.params args [] }
    let st0 := { st with envs := st.envs ++ [callEnv] }
    let previous := st0.environment
    match executeStmts fuel f.declaration.body { st0 with environment := envId } with
    | none => none
    | some (r, st2) =>
      let body_result : Except RuntimeError Value :=
        match r with
        | .error (RuntimeError.ReturnException val) =>
          if f.is_initializer then
            Environment.get_at_string st2.envs f.closure 0 "this"
          else .ok val
        | .error e => .error e
        | .ok _ => .ok Value.VNil
      let body_result2 : Except RuntimeError Value :=
        match f.is_initializer, body_result with
        | true, .ok Value.VNil => Environment.get_at_string st2.envs f.closure 0 "this"
        | _, _ => body_result
      some (body_result2, { st2 with environment := previous })

/-- LoxClass::call (lox_class.rs lines 52 to 63): allocate the fresh
instance; when init is found on the class or a superclass, bind it to the
instance and call it, propagating only its errors; the call yields the
fresh instance. -/
def LoxClass.call : Nat → LoxClass → List Value → Interp →
    Option (Except RuntimeError Value × Interp)
  | 0, _, _, _ => none
  | fuel+1, c, args, st =>
    let instId := st.insts.length
    let st1 := { st with insts := st.insts ++ [{ klass := c, fields := [] }] }
    match c.find_method "init" with
    | some i =>
      let r := i.bind instId st1
      match LoxFunction.call fuel r.1 args r.2 with
      | none => none
      | some (.error e, st3) => some (.error e, st3)
      | some (.ok _, st3) => some (.ok (Value.VInstance instId), st3)
    | none => some (.ok (Value.VInstance instId), st1)

/-- evaluate_get (interp.rs lines 664 to 676): the object must evaluate to
an instance; the lookup then runs on the instance. -/
def evaluate_get : Nat → Expr → Token → Interp →
    Option (Except RuntimeError Value × Interp)
  | 0, _, _, _ => none
  | fuel+1, object_expr, name, st =>
    match evaluate fuel object_expr st with
    | none => none
    | some (.error e, st1) => some (.error e, st1)
    | some (.ok obj, st1) =>
      match obj with
      | .VInstance i => some (LoxInstance.get st1 i name)
      | _ =>
        some (.error (RuntimeError.TypeError "Only instances have properties."
          name.line), st1)

/-- evaluate_ternary (interp.rs lines 678 to 691). -/
def evaluate_ternary : Nat → Expr → Expr → Expr → Interp →
    Option (Except RuntimeError Value × Interp)
  | 0, _, _, _, _ => none
  | fuel+1, condition, true_expr, false_expr, st =>
    match evaluate fuel condition st with
    | none => none
    | some (.error e, st1) => some (.error e, st1)
    | some (.ok v, st1) =>
      if is_truthy v then evaluate fuel true_expr st1
      else evaluate fuel false_expr st1

end

/-- Interpreter::interpret (interp.rs lines 82 to 90): execute the
statements in order, stopping at the first error. -/
def interpret (fuel : Nat) (statements : List Stmt) (st : Interp) :
    Option (Except RuntimeError Unit × Interp) :=
  executeStmts fuel statements st

/-! ## Concrete programs for the evaluator claims (C6, C8, C9).  Node ids
are chosen distinct, as the parser would; none of them is resolved, so
every name below reaches the globals map, exactly as at the top level of a
script.  The helper tokens carry the lexemes the scanner would produce. -/

/-- Identifier token with the given name. -/
def idTok (s : String) : Token :=
  { kind := TokenType.Identifier, lexeme := s, literal := none, line := 1 }

/-- Comma operator token. -/
def comTok : Token := { kind := TokenType.Comma, lexeme := ",", literal := none, line := 1 }

/-- Plus operator token. -/
def plTok : Token := { kind := TokenType.Plus, lexeme := "+", literal := none, line := 1 }

/-- Closing-paren token recorded on call expressions. -/
def parTok : Token := { kind := TokenType.RightParen, lexeme := ")", literal := none, line := 1 }

/-- Return keyword token. -/
def retTok : Token := { kind := TokenType.Return, lexeme := "return", literal := none, line := 1 }

/-- The comma expression of C6, written x = x + 1 , x in the source
language: the left operand assigns x + 1 to x, the right operand reads
x. -/
def c6expr : Expr :=
  Expr.Binary
    (Expr.Assign 0 (idTok "x")
      (Expr.Binary (Expr.Variable 1 (idTok "x")) plTok (Expr.Literal (Lit.Num 1))))
    comTok
    (Expr.Variable 2 (idTok "x"))

/-- Interpreter state with the global x bound to zero, the state reached
after running var x = 0 from a fresh interpreter. -/
def c6global : EnvData :=
  { enclosing := none,
    values := [("clock", Value.VClock), ("x", Value.VNumber 0)] }

/-- Interpreter state built on that single global scope. -/
def c6st : Interp :=
  { envs := [c6global], insts := [], globals := 0, environment := 0,
    locals := [], output := [] }

/-- The two-statement program var x = 0; then the comma expression as an
expression statement. -/
def c6prog : List Stmt :=
  [ Stmt.Var (idTok "x") (some (Expr.Literal (Lit.Num 0))),
    Stmt.Expression c6expr ]

/-- Initializer declaration of C8: init() with the bare return body. -/
def c8init : FunctionDecl :=
  FunctionDecl.mk (some (idTok "init")) [] [Stmt.Return retTok none]

/-- The C8 program: class Foo with the bare-return init, then
var f = Foo(); print f;. -/
def c8prog : List Stmt :=
  [ Stmt.Class (idTok "Foo") none [c8init],
    Stmt.Var (idTok "f") (some (Expr.Call (Expr.Variable 0 (idTok "Foo")) parTok [])),
    Stmt.Print (Expr.Variable 1 (idTok "f")) ]

/-- Methodless class used to instantiate the C8 theorem at a concrete
call. -/
def c8emptyClass : LoxClass := LoxClass.mk "Empty" none []

/-- Parameterless function with an empty body, used to instantiate the C9
theorem at a concrete call. -/
def c9fn : LoxFunction :=
  { declaration := .mk none [] [], closure := 0, is_initializer := false }

/-- Empty scope enclosed by the globals, the shape Function::call
allocates for a parameterless call; used by the C9 witness. -/
def c9env : EnvData := { enclosing := some 0, values := [] }

/-! ## Parser errors (error/err.rs enum ParserError, Io payload dropped). -/

inductive ParserError where
  | Io
  | UnterminatedParen (line : Nat)
  | UnexpectedExpression (found : Token) (line : Nat)
  | UnexpectedToken (expected : TokenType) (found : Token) (line : Nat)
  | UnexpectedEof (expected : String) (line : Nat)
  | InvalidAssignmentTarget (found : Token) (line : Nat)
  | BreakException (line : Nat)
  | TooManyParams (line : Nat)
deriving DecidableEq, Repr

/-! ## Parser state (parser/parse.rs struct Parser).  The extra nextId
counter hands each identity-carrying node (Variable, Assign, This, Super)
a fresh nodeId, embedding the distinct Rc addresses of the source.  Every
method threads the state through both the success and the error case,
because the source methods advance the shared cursor before failing, and
synchronize resumes from wherever the failure left it. -/

structure Parser where
  tokens : List Token
  current : Nat
  loop_depth : Nat
  nextId : Nat
deriving Repr

namespace Parser

/-- Parser::new. -/
def new (tokens : List Token) : Parser :=
  { tokens := tokens, current := 0, loop_depth := 0, nextId := 0 }

/-- Parser::peek: the token at the cursor. -/
def peek (p : Parser) : Option Token :=
  p.tokens.get? p.current

/-- Parser::previous: the token before the cursor.  The source indexes the
vector directly and every call site has consumed at least one token; a
fabricated end-of-file token stands in for the unreachable out-of-range
case. -/
def previous (p : Parser) : Token :=
  match p.tokens.get? (p.current - 1) with
  | some t => t
  | none => { kind := TokenType.Eof, lexeme := "", literal := none, line := 0 }

/-- Parser::is_at_end: the cursor sits on the end-of-file token. -/
def is_at_end (p : Parser) : Bool :=
  match p.peek with
  | some t => t.kind = TokenType.Eof
  | none => false

/-- Parser::advance: step the cursor unless at the end, then hand back the
token just passed. -/
def advance (p : Parser) : Token × Parser :=
  let p1 := if p.is_at_end then p else { p with current := p.current + 1 }
  (p1.previous, p1)

/-- Parser::check: whether the peeked token kind is among the given ones. -/
def check (p : Parser) (kinds : List TokenType) : Bool :=
  match p.peek with
  | some t => kinds.contains t.kind
  | none => false

/-- Parser::matches: check and consume on success.  The source name is a
reserved word in Lean, hence the suffix. -/
def matchesAny (p : Parser) (types : List TokenType) : Bool × Parser :=
  match p.peek with
  | some t => if types.contains t.kind then (true, (p.advance).2) else (false, p)
  | none => (false, p)

/-- Parser::current_line: the line of the peeked token, one at the end. -/
def current_line (p : Parser) : Nat :=
  match p.peek with
  | some t => t.line
  | none => 1

/-- Parser::consume: take a token of the expected kind or fail with
UnexpectedToken (or UnexpectedEof past the end, carrying the message). -/
def consume (p : Parser) (expected : TokenType) (message : String) :
    Except ParserError Token × Parser :=
  match p.peek with
  | some t =>
    if t.kind = expected then
      let r := p.advance
      (Except.ok r.1, r.2)
    else (Except.error (ParserError.UnexpectedToken expected t t.line), p)
  | none => (Except.error (ParserError.UnexpectedEof message p.current_line), p)

/-- Fresh node identity for the next Variable, Assign, This or Super
node. -/
def freshId (p : Parser) : Nat × Parser :=
  (p.nextId, { p with nextId := p.nextId + 1 })

/-- The loop of Parser::synchronize: stop right past a semicolon or on a
statement keyword, otherwise discard and continue. -/
def syncLoop : Nat → Parser → Option Parser
  | 0, _ => none
  | fuel+1, p =>
    if p.is_at_end then some p
    else if p.previous.kind = TokenType.Semicolon then some p
    else
      match p.peek with
      | some t =>
        match t.kind with
        | .Class | .Fn | .Var | .For | .If | .While | .Print | .Return => some p
        | _ => syncLoop fuel (p.advance).2
      | none => some p

/-- Parser::synchronize (parse.rs lines 636 to 661): advance once, then
discard tokens to the next statement boundary. -/
def synchronize (fuel : Nat) (p : Parser) : Option Parser :=
  syncLoop fuel (p.advance).2

/-- Parser::break_statement (parse.rs lines 251 to 258): a break at loop
depth zero is the BreakException parse error; otherwise the keyword is
kept and the semicolon consumed. -/
def break_statement (p : Parser) : Except ParserError Stmt × Parser :=
  if p.loop_depth = 0 then
    (Except.error (ParserError.BreakException p.current_line), p)
  else
    let kword := p.previous
    match p.consume TokenType.Semicolon "Expected ';' after keyword." with
    | (.error e, p1) => (.error e, p1)
    | (.ok _, p1) => (.ok (Stmt.Break kword), p1)

/-- Parameter loop of Parser::function (parse.rs lines 270 to 284).  The
overflow past 255 parameters only prints a warning in the source and does
not change the parse. -/
def paramsLoop : Nat → Parser → List Token →
    Option (Except ParserError (List Token) × Parser)
  | 0, _, _ => none
  | fuel+1, p, acc =>
    match p.consume TokenType.Identifier "Expect parameter name." with
    | (.error e, p1) => some (.error e, p1)
    | (.ok param, p1) =>
      if !(p1.check [TokenType.RightParen]) then
        match p1.consume TokenType.Comma "Expect ',' between parameters." with
        | (.error e, p2) => some (.error e, p2)
        | (.ok _, p2) => paramsLoop fuel p2 (acc ++ [param])
      else some (.ok (acc ++ [param]), p1)

/-- Parameter loop of the lambda arm of Parser::primary (parse.rs lines
607 to 623): unlike function parameters, a 256th parameter aborts with
TooManyParams. -/
def lambdaParamsLoop : Nat → Parser → List Token →
    Option (Except ParserError (List Token) × Parser)
  | 0, _, _ => none
  | fuel+1, p, acc =>
    if 255 ≤ acc.length then
      some (.error (ParserError.TooManyParams p.current_line), p)
    else
      match p.consume TokenType.Identifier "Expect paramater name." with
      | (.error e, p1) => some (.error e, p1)
      | (.ok param, p1) =>
        let m := p1.matchesAny [TokenType.Comma]
        if m.1 then lambdaParamsLoop fuel m.2 (acc ++ [param])
        else some (.ok (acc ++ [param]), m.2)

end Parser

namespace Parser

/-! The recursive-descent methods of parser/parse.rs, one mutual cluster
structurally recursive on a shared fuel.  Each while loop of the source is
its own fueled loop function carrying the accumulated left-hand side or
list.  Note that for_statement never touches loop_depth (only
while_statement does), and that primary has no arm for the Super token
kind: both facts are inherited directly from the source and decide claims
C5 and C1. -/

mutual

/-- Parser::parse (parse.rs lines 40 to 50). -/
def parse : Nat → Parser → Option (Except ParserError (List Stmt) × Parser)
  | 0, _ => none
  | fuel+1, p => parseLoop fuel p []

/-- The while loop of Parser::parse: collect the declarations that
survive (a synchronized failure contributes nothing). -/
def parseLoop : Nat → Parser → List Stmt →
    Option (Except ParserError (List Stmt) × Parser)
  | 0, _, _ => none
  | fuel+1, p, acc =>
    if p.is_at_end then some (.ok acc, p)
    else
      match declaration fuel p with
      | none => none
      | some (.error e, p1) => some (.error e, p1)
      | some (.ok os, p1) =>
        match os with
        | some s => parseLoop fuel p1 (acc ++ [s])
        | none => parseLoop fuel p1 acc

/-- Parser::expr (parse.rs lines 52 to 54). -/
def expr : Nat → Parser → Option (Except ParserError Expr × Parser)
  | 0, _ => none
  | fuel+1, p => comma fuel p

/-- Parser::declaration (parse.rs lines 56 to 75): dispatch on var, class
and fn; any error from the chosen production is swallowed, the parser
synchronizes, and the declaration is dropped. -/
def declaration : Nat → Parser → Option (Except ParserError (Option Stmt) × Parser)
  | 0, _ => none
  | fuel+1, p =>
    let m1 := p.matchesAny [TokenType.Var]
    let result :=
      if m1.1 then var_declaration fuel m1.2
      else
        let m2 := m1.2.matchesAny [TokenType.Class]
        if m2.1 then classStmt fuel m2.2
        else
          let m3 := m2.2.matchesAny [TokenType.Fn]
          if m3.1 then function fuel m3.2.previous m3.2
          else statement fuel m3.2
    match result with
    | none => none
    | some (.ok stmt, p1) => some (.ok (some stmt), p1)
    | some (.error _, p1) =>
      match synchronize fuel p1 with
      | none => none
      | some p2 => some (.ok none, p2)

/-- Parser::class (parse.rs lines 77 to 106): name, optional superclass
after a less sign (a Variable node), the braced method list (each parsed
by function under a fabricated token whose lexeme is the word method),
closing brace. -/
def classStmt : Nat → Parser → Option (Except ParserError Stmt × Parser)
  | 0, _ => none
  | fuel+1, p =>
    match p.consume TokenType.Identifier "Expect class name." with
    | (.error e, p1) => some (.error e, p1)
    | (.ok class_name, p1) =>
      let m := p1.matchesAny [TokenType.Less]
      let superStep : Except ParserError (Option Expr) × Parser :=
        if m.1 then
          match m.2.consume TokenType.Identifier "Expect superclass name." with
          | (.error e, p2) => (.error e, p2)
          | (.ok super_name, p2) =>
            let f := p2.freshId
            (.ok (some (Expr.Variable f.1 super_name)), f.2)
        else (.ok none, m.2)
      match superStep with
      | (.error e, p2) => some (.error e, p2)
      | (.ok superclass, p2) =>
        match p2.consume TokenType.LeftBrace "Expect left brace before class body." with
        | (.error e, p3) => some (.error e, p3)
        | (.ok _, p3) =>
          match classMethods fuel p3 [] with
          | none => none
          | some (.error e, p4) => some (.error e, p4)
          | some (.ok methods, p4) =>
            match p4.consume TokenType.RightBrace "Expect right brace after class body." with
            | (.error e, p5) => some (.error e, p5)
            | (.ok _, p5) =>
              some (.ok (Stmt.Class class_name superclass methods), p5)

/-- The method loop of Parser::class. -/
def classMethods : Nat → Parser → List FunctionDecl →
    Option (Except ParserError (List FunctionDecl) × Parser)
  | 0, _, _ => none
  | fuel+1, p, acc =>
    if !(p.check [TokenType.RightBrace]) && !p.is_at_end then
      let method_token : Token :=
        { kind := TokenType.Identifier, lexeme := "method", literal := none,
          line := p.current_line }
      match function fuel method_token p with
      | none => none
      | some (.error e, p1) => some (.error e, p1)
      | some (.ok m, p1) =>
        match m with
        | Stmt.Function fd => classMethods fuel p1 (acc ++ [fd])
        | _ => classMethods fuel p1 acc
    else some (.ok acc, p)

/-- Parser::statement (parse.rs lines 108 to 127). -/
def statement : Nat → Parser → Option (Except ParserError Stmt × Parser)
  | 0, _ => none
  | fuel+1, p =>
    let m1 := p.matchesAny [TokenType.For]
    if m1.1 then for_statement fuel m1.2
    else
      let m2 := m1.2.matchesAny [TokenType.If]
      if m2.1 then if_statement fuel m2.2
      else
        let m3 := m2.2.matchesAny [TokenType.Print]
        if m3.1 then print_statement fuel m3.2
        else
          let m4 := m3.2.matchesAny [TokenType.Return]
          if m4.1 then return_statement fuel m4.2
          else
            let m5 := m4.2.matchesAny [TokenType.While]
            if m5.1 then while_statement fuel m5.2
            else
              let m6 := m5.2.matchesAny [TokenType.Break]
              if m6.1 then some (break_statement m6.2)
              else
                let m7 := m6.2.matchesAny [TokenType.LeftBrace]
                if m7.1 then
                  match block fuel m7.2 with
                  | none => none
                  | some (.error e, p1) => some (.error e, p1)
                  | some (.ok block_stmts, p1) =>
                    some (.ok (Stmt.Block block_stmts), p1)
                else expression_statement fuel m7.2

/-- Parser::for_statement (parse.rs lines 129 to 180): initializer,
condition, increment, body, desugared at parse time into blocks around a
While; the missing condition defaults to true.  The loop depth counter is
never incremented here, exactly as in the source. -/
def for_statement : Nat → Parser → Option (Except ParserError Stmt × Parser)
  | 0, _ => none
  | fuel+1, p =>
    match p.consume TokenType.LeftParen "Expected '(' after 'for'." with
    | (.error e, p1) => some (.error e, p1)
    | (.ok _, p1) =>
      let m1 := p1.matchesAny [TokenType.Semicolon]
      let initStep : Option (Except ParserError (Option Stmt) × Parser) :=
        if m1.1 then some (.ok none, m1.2)
        else
          let m2 := m1.2.matchesAny [TokenType.Var]
          if m2.1 then
            match var_declaration fuel m2.2 with
            | none => none
            | some (.error e, p2) => some (.error e, p2)
            | some (.ok s, p2) => some (.ok (some s), p2)
          else
            match expression_statement fuel m2.2 with
            | none => none
            | some (.error e, p2) => some (.error e, p2)
            | some (.ok s, p2) => some (.ok (some s), p2)
      match initStep with
      | none => none
      | some (.error e, p2) => some (.error e, p2)
      | some (.ok initializer, p2) =>
        let condStep : Option (Except ParserError (Option Expr) × Parser) :=
          if !(p2.check [TokenType.Semicolon]) then
            match expr fuel p2 with
            | none => none
            | some (.error e, p3) => some (.error e, p3)
            | some (.ok c, p3) => some (.ok (some c), p3)
          else some (.ok none, p2)
        match condStep with
        | none => none
        | some (.error e, p3) => some (.error e, p3)
        | some (.ok cond, p3) =>
          match p3.consume TokenType.Semicolon "Expected ';' after loop condition." with
          | (.error e, p4) => some (.error e, p4)
          | (.ok _, p4) =>
            let incStep : Option (Except ParserError (Option Expr) × Parser) :=
              if !(p4.check [TokenType.RightParen]) then
                match expr fuel p4 with
                | none => none
                | some (.error e, p5) => some (.error e, p5)
                | some (.ok i, p5) => some (.ok (some i), p5)
              else some (.ok none, p4)
            match incStep with
            | none => none
            | some (.error e, p5) => some (.error e, p5)
            | some (.ok increment, p5) =>
              match p5.consume TokenType.RightParen "Expect ')' after for clauses." with
              | (.error e, p6) => some (.error e, p6)
              | (.ok _, p6) =>
                match statement fuel p6 with
                | none => none
                | some (.error e, p7) => some (.error e, p7)
                | some (.ok body, p7) =>
                  let body1 := match increment with
                               | some inc => Stmt.Block [body, Stmt.Expression inc]
                               | none => body
                  let cond1 := match cond with
                               | some c => c
                               | none => Expr.Literal Lit.True
                  let body2 := Stmt.While cond1 body1
                  let body3 := match initializer with
                               | some init => Stmt.Block [init, body2]
                               | none => body2
                  some (.ok body3, p7)

/-- Parser::if_statement (parse.rs lines 182 to 198). -/
def if_statement : Nat → Parser → Option (Except ParserError Stmt × Parser)
  | 0, _ => none
  | fuel+1, p =>
    match p.consume TokenType.LeftParen "Expect '(' after 'if'." with
    | (.error e, p1) => some (.error e, p1)
    | (.ok _, p1) =>
      match expr fuel p1 with
      | none => none
      | some (.error e, p2) => some (.error e, p2)
      | some (.ok cond, p2) =>
        match p2.consume TokenType.RightParen "Expect ')' after condition." with
        | (.error e, p3) => some (.error e, p3)
        | (.ok _, p3) =>
          match statement fuel p3 with
          | none => none
          | some (.error e, p4) => some (.error e, p4)
          | some (.ok then_br, p4) =>
            let m := p4.matchesAny [TokenType.Else]
            if m.1 then
              match statement fuel m.2 with
              | none => none
              | some (.error e, p5) => some (.error e, p5)
              | some (.ok else_br, p5) =>
                some (.ok (Stmt.If cond then_br (some else_br)), p5)
            else some (.ok (Stmt.If cond then_br none), m.2)

/-- Parser::print_statement (parse.rs lines 200 to 204). -/
def print_statement : Nat → Parser → Option (Except ParserError Stmt × Parser)
  | 0, _ => none
  | fuel+1, p =>
    match expr fuel p with
    | none => none
    | some (.error e, p1) => some (.error e, p1)
    | some (.ok value, p1) =>
      match p1.consume TokenType.Semicolon "Expect ';' after value." with
      | (.error e, p2) => some (.error e, p2)
      | (.ok _, p2) => some (.ok (Stmt.Print value), p2)

/-- Parser::var_declaration (parse.rs lines 206 to 219). -/
def var_declaration : Nat → Parser → Option (Except ParserError Stmt × Parser)
  | 0, _ => none
  | fuel+1, p =>
    match p.consume TokenType.Identifier "Expected variable name." with
    | (.error e, p1) => some (.error e, p1)
    | (.ok value, p1) =>
      let m := p1.matchesAny [TokenType.Equal]
      let initStep : Option (Except ParserError (Option Expr) × Parser) :=
        if m.1 then
          match expr fuel m.2 with
          | none => none
          | some (.error e, p2) => some (.error e, p2)
          | some (.ok e, p2) => some (.ok (some e), p2)
        else some (.ok none, m.2)
      match initStep with
      | none => none
      | some (.error e, p2) => some (.error e, p2)
      | some (.ok init, p2) =>
        match p2.consume TokenType.Semicolon "Expect ';' after value." with
        | (.error e, p3) => some (.error e, p3)
        | (.ok _, p3) => some (.ok (Stmt.Var value init), p3)

/-- Parser::return_statement (parse.rs lines 221 to 235). -/
def return_statement : Nat → Parser → Option (Except ParserError Stmt × Parser)
  | 0, _ => none
  | fuel+1, p =>
    let kw := p.previous
    let valStep : Option (Except ParserError (Option Expr) × Parser) :=
      if !(p.check [TokenType.Semicolon]) then
        match expr fuel p with
        | none => none
        | some (.error e, p1) => some (.error e, p1)
        | some (.ok v, p1) => some (.ok (some v), p1)
      else some (.ok none, p)
    match valStep with
    | none => none
    | some (.error e, p1) => some (.error e, p1)
    | some (.ok val, p1) =>
      match p1.consume TokenType.Semicolon "Expect ';' after return statement." with
      | (.error e, p2) => some (.error e, p2)
      | (.ok _, p2) => some (.ok (Stmt.Return kw val), p2)

/-- Parser::while_statement (parse.rs lines 237 to 249): the only place
the loop depth counter moves; it is incremented on entry and decremented
after the body parses (an error path leaves it incremented, as in the
source). -/
def while_statement : Nat → Parser → Option (Except ParserError Stmt × Parser)
  | 0, _ => none
  | fuel+1, p =>
    let p0 : Parser := { p with loop_depth := p.loop_depth + 1 }
    match p0.consume TokenType.LeftParen "Expected '(' after 'while'." with
    | (.error e, p1) => some (.error e, p1)
    | (.ok _, p1) =>
      match expr fuel p1 with
      | none => none
      | some (.error e, p2) => some (.error e, p2)
      | some (.ok cond, p2) =>
        match p2.consume TokenType.RightParen "Expected ')' after condition." with
        | (.error e, p3) => some (.error e, p3)
        | (.ok _, p3) =>
          match statement fuel p3 with
          | none => none
          | some (.error e, p4) => some (.error e, p4)
          | some (.ok cond_body, p4) =>
            some (.ok (Stmt.While cond cond_body),
                  { p4 with loop_depth := p4.loop_depth - 1 })

/-- Parser::expression_statement (parse.rs lines 260 to 264). -/
def expression_statement : Nat → Parser → Option (Except ParserError Stmt × Parser)
  | 0, _ => none
  | fuel+1, p =>
    match expr fuel p with
    | none => none
    | some (.error e, p1) => some (.error e, p1)
    | some (.ok expression, p1) =>
      match p1.consume TokenType.Semicolon "Expect ';' after value." with
      | (.error e, p2) => some (.error e, p2)
      | (.ok _, p2) => some (.ok (Stmt.Expression expression), p2)

/-- Parser::function (parse.rs lines 266 to 296): name, parameter list,
braced body. -/
def function : Nat → Token → Parser → Option (Except ParserError Stmt × Parser)
  | 0, _, _ => none
  | fuel+1, _kind, p =>
    match p.consume TokenType.Identifier "Expect name." with
    | (.error e, p1) => some (.error e, p1)
    | (.ok name, p1) =>
      match p1.consume TokenType.LeftParen "Expect '(' after name." with
      | (.error e, p2) => some (.error e, p2)
      | (.ok _, p2) =>
        let ps : Option (Except ParserError (List Token) × Parser) :=
          if !(p2.check [TokenType.RightParen]) then paramsLoop fuel p2 []
          else some (.ok [], p2)
        match ps with
        | none => none
        | some (.error e, p3) => some (.error e, p3)
        | some (.ok parameters, p3) =>
          match p3.consume TokenType.RightParen "Expect ')' after parameters." with
          | (.error e, p4) => some (.error e, p4)
          | (.ok _, p4) =>
            match p4.consume TokenType.LeftBrace "Expect left brace before name." with
            | (.error e, p5) => some (.error e, p5)
            | (.ok _, p5) =>
              match block fuel p5 with
              | none => none
              | some (.error e, p6) => some (.error e, p6)
              | some (.ok body, p6) =>
                some (.ok (Stmt.Function (.mk (some name) parameters body)), p6)

/-- Parser::block (parse.rs lines 298 to 308). -/
def block : Nat → Parser → Option (Except ParserError (List Stmt) × Parser)
  | 0, _ => none
  | fuel+1, p => blockLoop fuel p []

/-- The declaration loop of Parser::block, ending at the closing brace. -/
def blockLoop : Nat → Parser → List Stmt →
    Option (Except ParserError (List Stmt) × Parser)
  | 0, _, _ => none
  | fuel+1, p, acc =>
    if !(p.check [TokenType.RightBrace]) && !p.is_at_end then
      match declaration fuel p with
      | none => none
      | some (.error e, p1) => some (.error e, p1)
      | some (.ok os, p1) =>
        match os with
        | some s => blockLoop fuel p1 (acc ++ [s])
        | none => blockLoop fuel p1 acc
    else
      match p.consume TokenType.RightBrace "Expect right brace after block." with
      | (.error e, p1) => some (.error e, p1)
      | (.ok _, p1) => some (.ok acc, p1)

/-- Parser::comma (parse.rs lines 310 to 325). -/
def comma : Nat → Parser → Option (Except ParserError Expr × Parser)
  | 0, _ => none
  | fuel+1, p =>
    match assignment fuel p with
    | none => none
    | some (.error e, p1) => some (.error e, p1)
    | some (.ok e, p1) => commaLoop fuel p1 e

/-- The while loop of Parser::comma. -/
def commaLoop : Nat → Parser → Expr → Option (Except ParserError Expr × Parser)
  | 0, _, _ => none
  | fuel+1, p, e =>
    match p.peek with
    | some t =>
      match t.kind with
      | .Comma =>
        let p1 := (p.advance).2
        let operator := p1.previous
        match assignment fuel p1 with
        | none => none
        | some (.error er, p2) => some (.error er, p2)
        | some (.ok right, p2) => commaLoop fuel p2 (Expr.Binary e operator right)
      | _ => some (.ok e, p)
    | none => some (.ok e, p)

/-- Parser::assignment (parse.rs lines 327 to 363): parse the left-hand
side, and on an equal sign recurse for the value; only a Variable (giving
Assign) or a Get (giving Set) is a legal target. -/
def assignment : Nat → Parser → Option (Except ParserError Expr × Parser)
  | 0, _ => none
  | fuel+1, p =>
    match or fuel p with
    | none => none
    | some (.error e, p1) => some (.error e, p1)
    | some (.ok e, p1) =>
      match p1.peek with
      | some t =>
        if t.kind = TokenType.Equal then
          let p2 := (p1.advance).2
          match assignment fuel p2 with
          | none => none
          | some (.error er, p3) => some (.error er, p3)
          | some (.ok value, p3) =>
            match e with
            | Expr.Variable _ name =>
              let f := p3.freshId
              some (.ok (Expr.Assign f.1 name value), f.2)
            | Expr.Get object name =>
              some (.ok (Expr.Set object name value), p3)
            | _ =>
              let token := p3.previous
              some (.error (ParserError.InvalidAssignmentTarget token token.line), p3)
        else some (.ok e, p1)
      | none => some (.ok e, p1)

/-- Parser::or (parse.rs lines 365 to 379). -/
def or : Nat → Parser → Option (Except ParserError Expr × Parser)
  | 0, _ => none
  | fuel+1, p =>
    match and fuel p with
    | none => none
    | some (.error e, p1) => some (.error e, p1)
    | some (.ok e, p1) => orLoop fuel p1 e

/-- The while loop of Parser::or. -/
def orLoop : Nat → Parser → Expr → Option (Except ParserError Expr × Parser)
  | 0, _, _ => none
  | fuel+1, p, e =>
    match p.peek with
    | some t =>
      if t.kind = TokenType.Or then
        let p1 := (p.advance).2
        let op := p1.previous
        match and fuel p1 with
        | none => none
        | some (.error er, p2) => some (.error er, p2)
        | some (.ok rhs, p2) => orLoop fuel p2 (Expr.Logical e op rhs)
      else some (.ok e, p)
    | none => some (.ok e, p)

/-- Parser::and (parse.rs lines 381 to 395). -/
def and : Nat → Parser → Option (Except ParserError Expr × Parser)
  | 0, _ => none
  | fuel+1, p =>
    match ternary fuel p with
    | none => none
    | some (.error e, p1) => some (.error e, p1)
    | some (.ok e, p1) => andLoop fuel p1 e

/-- The while loop of Parser::and. -/
def andLoop : Nat → Parser → Expr → Option (Except ParserError Expr × Parser)
  | 0, _, _ => none
  | fuel+1, p, e =>
    match p.peek with
    | some t =>
      if t.kind = TokenType.And then
        let p1 := (p.advance).2
        let op := p1.previous
        match ternary fuel p1 with
        | none => none
        | some (.error er, p2) => some (.error er, p2)
        | some (.ok rhs, p2) => andLoop fuel p2 (Expr.Logical e op rhs)
      else some (.ok e, p)
    | none => some (.ok e, p)

/-- Parser::ternary (parse.rs lines 396 to 418): question mark, a middle
branch parsed as assignment, a colon, an else branch parsed as ternary. -/
def ternary : Nat → Parser → Option (Except ParserError Expr × Parser)
  | 0, _ => none
  | fuel+1, p =>
    match equality fuel p with
    | none => none
    | some (.error e, p1) => some (.error e, p1)
    | some (.ok e, p1) =>
      match p1.peek with
      | some token =>
        if token.kind = TokenType.Question then
          let p2 := (p1.advance).2
          match assignment fuel p2 with
          | none => none
          | some (.error er, p3) => some (.error er, p3)
          | some (.ok true_expr, p3) =>
            match p3.peek with
            | some colon_token =>
              if colon_token.kind = TokenType.Colon then
                let p4 := (p3.advance).2
                match ternary fuel p4 with
                | none => none
                | some (.error er, p5) => some (.error er, p5)
                | some (.ok false_expr, p5) =>
                  some (.ok (Expr.Ternary e true_expr false_expr), p5)
              else
                some (.error (ParserError.UnexpectedToken TokenType.Colon
                  colon_token token.line), p3)
            | none =>
              some (.error (ParserError.UnexpectedEof "':'" p3.current_line), p3)
        else some (.ok e, p1)
      | none => some (.ok e, p1)

/-- Parser::equality (parse.rs lines 420 to 435). -/
def equality : Nat → Parser → Option (Except ParserError Expr × Parser)
  | 0, _ => none
  | fuel+1, p =>
    match comparison fuel p with
    | none => none
    | some (.error e, p1) => some (.error e, p1)
    | some (.ok e, p1) => equalityLoop fuel p1 e

/-- The while loop of Parser::equality. -/
def equalityLoop : Nat → Parser → Expr → Option (Except ParserError Expr × Parser)
  | 0, _, _ => none
  | fuel+1, p, e =>
    match p.peek with
    | some t =>
      match t.kind with
      | .BangEqual | .EqualEqual =>
        let p1 := (p.advance).2
        let operator := p1.previous
        match comparison fuel p1 with
        | none => none
        | some (.error er, p2) => some (.error er, p2)
        | some (.ok right, p2) => equalityLoop fuel p2 (Expr.Binary e operator right)
      | _ => some (.ok e, p)
    | none => some (.ok e, p)

/-- Parser::comparison (parse.rs lines 437 to 453). -/
def comparison : Nat → Parser → Option (Except ParserError Expr × Parser)
  | 0, _ => none
  | fuel+1, p =>
    match term fuel p with
    | none => none
    | some (.error e, p1) => some (.error e, p1)
    | some (.ok e, p1) => comparisonLoop fuel p1 e

/-- The while loop of Parser::comparison. -/
def comparisonLoop : Nat → Parser → Expr → Option (Except ParserError Expr × Parser)
  | 0, _, _ => none
  | fuel+1, p, e =>
    match p.peek with
    | some t =>
      match t.kind with
      | .Greater | .GreaterEqual | .Less | .LessEqual =>
        let p1 := (p.advance).2
        let operator := p1.previous
        match term fuel p1 with
        | none => none
        | some (.error er, p2) => some (.error er, p2)
        | some (.ok right, p2) => comparisonLoop fuel p2 (Expr.Binary e operator right)
      | _ => some (.ok e, p)
    | none => some (.ok e, p)

/-- Parser::term (parse.rs lines 455 to 470). -/
def term : Nat → Parser → Option (Except ParserError Expr × Parser)
  | 0, _ => none
  | fuel+1, p =>
    match factor fuel p with
    | none => none
    | some (.error e, p1) => some (.error e, p1)
    | some (.ok e, p1) => termLoop fuel p1 e

/-- The while loop of Parser::term. -/
def termLoop : Nat → Parser → Expr → Option (Except ParserError Expr × Parser)
  | 0, _, _ => none
  | fuel+1, p, e =>
    match p.peek with
    | some t =>
      match t.kind with
      | .Minus | .Plus =>
        let p1 := (p.advance).2
        let operator := p1.previous
        match factor fuel p1 with
        | none => none
        | some (.error er, p2) => some (.error er, p2)
        | some (.ok right, p2) => termLoop fuel p2 (Expr.Binary e operator right)
      | _ => some (.ok e, p)
    | none => some (.ok e, p)

/-- Parser::factor (parse.rs lines 472 to 487). -/
def factor : Nat → Parser → Option (Except ParserError Expr × Parser)
  | 0, _ => none
  | fuel+1, p =>
    match unary fuel p with
    | none => none
    | some (.error e, p1) => some (.error e, p1)
    | some (.ok e, p1) => factorLoop fuel p1 e

/-- The while loop of Parser::factor. -/
def factorLoop : Nat → Parser → Expr → Option (Except ParserError Expr × Parser)
  | 0, _, _ => none
  | fuel+1, p, e =>
    match p.peek with
    | some t =>
      match t.kind with
      | .Slash | .Star =>
        let p1 := (p.advance).2
        let operator := p1.previous
        match unary fuel p1 with
        | none => none
        | some (.error er, p2) => some (.error er, p2)
        | some (.ok right, p2) => factorLoop fuel p2 (Expr.Binary e operator right)
      | _ => some (.ok e, p)
    | none => some (.ok e, p)

/-- Parser::unary (parse.rs lines 489 to 502). -/
def unary : Nat → Parser → Option (Except ParserError Expr × Parser)
  | 0, _ => none
  | fuel+1, p =>
    match p.peek with
    | some t =>
      match t.kind with
      | .Bang | .Minus =>
        let p1 := (p.advance).2
        let operator := p1.previous
        match unary fuel p1 with
        | none => none
        | some (.error er, p2) => some (.error er, p2)
        | some (.ok right, p2) => some (.ok (Expr.Unary operator right), p2)
      | _ => call fuel p
    | none => call fuel p

/-- Parser::finish_call (parse.rs lines 504 to 526).  The overflow past
255 arguments only prints a warning in the source. -/
def finish_call : Nat → Expr → Parser → Option (Except ParserError Expr × Parser)
  | 0, _, _ => none
  | fuel+1, callee, p =>
    let argsStep : Option (Except ParserError (List Expr) × Parser) :=
      if !(p.check [TokenType.RightParen]) then argsLoop fuel p []
      else some (.ok [], p)
    match argsStep with
    | none => none
    | some (.error e, p1) => some (.error e, p1)
    | some (.ok arguments, p1) =>
      match p1.consume TokenType.RightParen "Expect ')' after arguments." with
      | (.error e, p2) => some (.error e, p2)
      | (.ok parentheses, p2) =>
        some (.ok (Expr.Call callee parentheses arguments), p2)

/-- The argument loop of Parser::finish_call. -/
def argsLoop : Nat → Parser → List Expr →
    Option (Except ParserError (List Expr) × Parser)
  | 0, _, _ => none
  | fuel+1, p, acc =>
    match assignment fuel p with
    | none => none
    | some (.error e, p1) => some (.error e, p1)
    | some (.ok a, p1) =>
      let m := p1.matchesAny [TokenType.Comma]
      if m.1 then argsLoop fuel m.2 (acc ++ [a])
      else some (.ok (acc ++ [a]), m.2)

/-- Parser::call (parse.rs lines 528 to 554). -/
def call : Nat → Parser → Option (Except ParserError Expr × Parser)
  | 0, _ => none
  | fuel+1, p =>
    match primary fuel p with
    | none => none
    | some (.error e, p1) => some (.error e, p1)
    | some (.ok e, p1) => callLoop fuel p1 e

/-- The postfix loop of Parser::call: calls, property access, and the
postfix increment and decrement. -/
def callLoop : Nat → Parser → Expr → Option (Except ParserError Expr × Parser)
  | 0, _, _ => none
  | fuel+1, p, e =>
    match p.peek with
    | some t =>
      match t.kind with
      | .LeftParen =>
        let p1 := (p.advance).2
        match finish_call fuel e p1 with
        | none => none
        | some (.error er, p2) => some (.error er, p2)
        | some (.ok e2, p2) => callLoop fuel p2 e2
      | .Dot =>
        let p1 := (p.advance).2
        match p1.consume TokenType.Identifier "Expect property name after '.'." with
        | (.error er, p2) => some (.error er, p2)
        | (.ok name, p2) => callLoop fuel p2 (Expr.Get e name)
      | .Increment | .Decrement =>
        let r := p.advance
        callLoop fuel r.2 (Expr.Mutate r.1 e true)
      | _ => some (.ok e, p)
    | none => some (.ok e, p)

/-- Parser::primary (parse.rs lines 556 to 634): literals, this,
identifiers, grouping, lambdas.  There is no arm for the Super token
kind, so a super expression falls into the catch-all and fails with
UnexpectedExpression; this is the source text verbatim and decides C1.
In the grouping arm the source unwraps peek, panicking at end of input,
embedded as none; a literal token without its payload is the same
panic. -/
def primary : Nat → Parser → Option (Except ParserError Expr × Parser)
  | 0, _ => none
  | fuel+1, p =>
    match p.peek with
    | none =>
      some (.error (ParserError.UnexpectedEof "expression" p.current_line), p)
    | some token =>
      match token.kind with
      | .This =>
        let r := p.advance
        let f := r.2.freshId
        some (.ok (Expr.This f.1 r.1), f.2)
      | .Identifier =>
        let r := p.advance
        let f := r.2.freshId
        some (.ok (Expr.Variable f.1 r.1), f.2)
      | .False =>
        let r := p.advance
        some (.ok (Expr.Literal Lit.False), r.2)
      | .True =>
        let r := p.advance
        some (.ok (Expr.Literal Lit.True), r.2)
      | .Nil =>
        let r := p.advance
        some (.ok (Expr.Literal Lit.Nil), r.2)
      | .Number | .String =>
        let r := p.advance
        match r.1.literal with
        | some lit => some (.ok (Expr.Literal lit), r.2)
        | none => none
      | .LeftParen =>
        let p1 := (p.advance).2
        match expr fuel p1 with
        | none => none
        | some (.error er, p2) => some (.error er, p2)
        | some (.ok e, p2) =>
          match p2.peek with
          | none => none
          | some nt =>
            if nt.kind = TokenType.RightParen then
              let r := p2.advance
              some (.ok (Expr.Grouping e), r.2)
            else some (.error (ParserError.UnterminatedParen token.line), p2)
      | .Fn =>
        let p1 := (p.advance).2
        match p1.consume TokenType.LeftParen "Expect '(' after 'fn'" with
        | (.error er, p2) => some (.error er, p2)
        | (.ok _, p2) =>
          let ps : Option (Except ParserError (List Token) × Parser) :=
            if !(p2.check [TokenType.RightParen]) then lambdaParamsLoop fuel p2 []
            else some (.ok [], p2)
          match ps with
          | none => none
          | some (.error er, p3) => some (.error er, p3)
          | some (.ok parameters, p3) =>
            match p3.consume TokenType.RightParen "Expect ')' after parameters." with
            | (.error er, p4) => some (.error er, p4)
            | (.ok _, p4) =>
              match p4.consume TokenType.LeftBrace "Expect left brace before lambda body" with
              | (.error er, p5) => some (.error er, p5)
              | (.ok _, p5) =>
                match block fuel p5 with
                | none => none
                | some (.error er, p6) => some (.error er, p6)
                | some (.ok body_block, p6) =>
                  some (.ok (Expr.Lambda parameters body_block), p6)
      | _ =>
        some (.error (ParserError.UnexpectedExpression token token.line), p)

end

end Parser

/-! ## Resolver (resolver/resolve.rs).  The scope stack grows at the tail
(the last entry is the innermost scope), matching the Vec of the source;
each scope maps a name to its defined flag.  The resolver writes depths
into the interpreter depth table through Interpreter::resolve, so the
resolving functions thread the interpreter state alongside the resolver
state.  The unimplemented catch-all of resolve_expr is embedded as none. -/

inductive CompilerError where
  | LocalVarDecl (name : Token)
  | ExistingVar (line : Nat)
  | IllegalReturn (keyword : Token)
  | ThisOutsideClass (keyword : Token)
  | InitializerReturn (keyword : Token)
  | SelfInheritance (line : Nat)
  | SuperTypeError (msg : String) (line : Nat)
deriving DecidableEq, Repr

/-- Resolver function context (resolve.rs enum FunctionType). -/
inductive FunctionType where
  | None
  | Function
  | Method
  | Initializer
deriving DecidableEq, Repr

/-- Resolver class context (resolve.rs enum ClassType). -/
inductive ClassType where
  | None
  | Class
  | SubClass
deriving DecidableEq, Repr

structure Resolver where
  scopes : List (List (String × Bool))
  errors : List CompilerError
  current_function : FunctionType
  current_class : ClassType
deriving Repr

namespace Resolver

/-- Resolver::new. -/
def new : Resolver :=
  { scopes := [], errors := [], current_function := FunctionType.None,
    current_class := ClassType.None }

/-- Resolver::begin_scope: push an empty scope. -/
def begin_scope (r : Resolver) : Resolver :=
  { r with scopes := r.scopes ++ [[]] }

/-- Resolver::end_scope: pop the innermost scope. -/
def end_scope (r : Resolver) : Resolver :=
  { r with scopes := r.scopes.dropLast }

/-- Insertion into the innermost scope, the last_mut of the source; a
missing scope is a no-op exactly where the source guards with if-let. -/
def insertLast (r : Resolver) (key : String) (b : Bool) : Resolver :=
  match r.scopes.getLast? with
  | some scope =>
    { r with scopes := r.scopes.dropLast ++ [(insertVal scope key b).1] }
  | none => r

/-- Resolver::declare (resolve.rs lines 311 to 319): an already-present
name in the innermost scope accumulates ExistingVar; the name is then
marked declared-but-undefined. -/
def declare (r : Resolver) (name : Token) : Resolver :=
  match r.scopes.getLast? with
  | none => r
  | some scope =>
    let r1 :=
      if (lookupVal scope name.lexeme).isSome then
        { r with errors := r.errors ++ [CompilerError.ExistingVar name.line] }
      else r
    insertLast r1 name.lexeme false

/-- Resolver::define (resolve.rs lines 321 to 325). -/
def define (r : Resolver) (name : Token) : Resolver :=
  insertLast r name.lexeme true

/-- The countdown loop of Resolver::resolve_local: i runs from the
innermost index down; the first scope containing the name yields the
depth, the distance from the top of the stack. -/
def resolve_local_loop (scopes : List (List (String × Bool))) (name : String) :
    Nat → Option Nat
  | 0 => none
  | i+1 =>
    match scopes.get? i with
    | some scope =>
      if (lookupVal scope name).isSome then some (scopes.length - 1 - i)
      else resolve_local_loop scopes name i
    | none => resolve_local_loop scopes name i

/-- Resolver::resolve_local (resolve.rs lines 269 to 282) combined with
Interpreter::resolve: a hit records the depth under the node identity; no
hit leaves the table alone (the name is taken as global). -/
def resolve_local (r : Resolver) (nodeId : Nat) (name : Token)
    (interp : Interp) : Interp :=
  match resolve_local_loop r.scopes name.lexeme r.scopes.length with
  | some depth => { interp with locals := (insertVal interp.locals nodeId depth).1 }
  | none => interp

mutual

/-- Resolver::resolve_stmts. -/
def resolve_stmts : Nat → List Stmt → Resolver → Interp →
    Option (Resolver × Interp)
  | 0, _, _, _ => none
  | _+1, [], r, interp => some (r, interp)
  | fuel+1, s :: rest, r, interp =>
    match resolve_stmt fuel s r interp with
    | none => none
    | some (r1, i1) => resolve_stmts fuel rest r1 i1

/-- Resolver::resolve_stmt (resolve.rs lines 64 to 175).  The trailing
catch-all of the source is a no-op and receives only Break. -/
def resolve_stmt : Nat → Stmt → Resolver → Interp → Option (Resolver × Interp)
  | 0, _, _, _ => none
  | fuel+1, stmt, r, interp =>
    match stmt with
    | .Block stmts =>
      match resolve_stmts fuel stmts (begin_scope r) interp with
      | none => none
      | some (r1, i1) => some (end_scope r1, i1)
    | .Var name initializer =>
      let r1 := declare r name
      let step : Option (Resolver × Interp) :=
        match initializer with
        | some e => resolve_expr fuel e r1 interp
        | none => some (r1, interp)
      match step with
      | none => none
      | some (r2, i2) => some (define r2 name, i2)
    | .Function func =>
      let r1 := match func.name with
                | some name => define (declare r name) name
                | none => r
      resolve_function fuel func FunctionType.Function r1 interp
    | .Class name superclass methods =>
      let enclosing_class := r.current_class
      let r0 := { r with current_class := ClassType.Class }
      let r1 := define (declare r0 name) name
      let r2 :=
        match superclass with
        | some se =>
          match se with
          | Expr.Variable _ super_name =>
            if super_name.lexeme = name.lexeme then
              { r1 with errors :=
                r1.errors ++ [CompilerError.SelfInheritance super_name.line] }
            else r1
          | _ => r1
        | none => r1
      let superStep : Option (Resolver × Interp) :=
        match superclass with
        | some superclass_expr =>
          resolve_expr fuel superclass_expr
            { r2 with current_class := ClassType.SubClass } interp
        | none => some (r2, interp)
      match superStep with
      | none => none
      | some (r3, i3) =>
        let r4 :=
          match superclass with
          | some _ => insertLast (begin_scope r3) "super" true
          | none => r3
        let r5 := insertLast (begin_scope r4) "this" true
        match resolveMethods fuel methods r5 i3 with
        | none => none
        | some (r6, i6) =>
          let r7 := end_scope r6
          let r8 :=
            match superclass with
            | some _ => end_scope r7
            | none => r7
          some ({ r8 with current_class := enclosing_class }, i6)
    | .Expression e => resolve_expr fuel e r interp
    | .If condition then_branch else_branch =>
      match resolve_expr fuel condition r interp with
      | none => none
      | some (r1, i1) =>
        match resolve_stmt fuel then_branch r1 i1 with
        | none => none
        | some (r2, i2) =>
          match else_branch with
          | some else_branch_stmt => resolve_stmt fuel else_branch_stmt r2 i2
          | none => some (r2, i2)
    | .Print e => resolve_expr fuel e r interp
    | .Return keyword value =>
      let r1 :=
        if r.current_function = FunctionType.None then
          { r with errors := r.errors ++ [CompilerError.IllegalReturn keyword] }
        else r
      let r2 :=
        if r1.current_function = FunctionType.Initializer ∧ value.isSome then
          { r1 with errors := r1.errors ++ [CompilerError.InitializerReturn keyword] }
        else r1
      match value with
      | some v => resolve_expr fuel v r2 interp
      | none => some (r2, interp)
    | .While condition body =>
      match resolve_expr fuel condition r interp with
      | none => none
      | some (r1, i1) => resolve_stmt fuel body r1 i1
    | _ => some (r, interp)

/-- The method loop inside the Class arm of resolve_stmt: a method named
init resolves in Initializer context, the rest in Method context. -/
def resolveMethods : Nat → List FunctionDecl → Resolver → Interp →
    Option (Resolver × Interp)
  | 0, _, _, _ => none
  | _+1, [], r, interp => some (r, interp)
  | fuel+1, m :: rest, r, interp =>
    let declaration :=
      if m.name.map Token.lexeme = some "init" then FunctionType.Initializer
      else FunctionType.Method
    match resolve_function fuel m declaration r interp with
    | none => none
    | some (r1, i1) => resolveMethods fuel rest r1 i1

/-- Resolver::resolve_expr (resolve.rs lines 177 to 267).  Every composite
form recurses into its children except the two the source leaves to the
unimplemented catch-all: Mutate and Lambda, which panic; the panic is
embedded as none. -/
def resolve_expr : Nat → Expr → Resolver → Interp → Option (Resolver × Interp)
  | 0, _, _, _ => none
  | fuel+1, e, r, interp =>
    match e with
    | .Variable nodeId name =>
      let r1 :=
        if !r.scopes.isEmpty then
          match r.scopes.getLast? with
          | some scope =>
            match lookupVal scope name.lexeme with
            | some false =>
              { r with errors := r.errors ++ [CompilerError.LocalVarDecl name] }
            | _ => r
          | none => r
        else r
      some (r1, resolve_local r1 nodeId name interp)
    | .Assign nodeId name value =>
      match resolve_expr fuel value r interp with
      | none => none
      | some (r1, i1) => some (r1, resolve_local r1 nodeId name i1)
    | .Binary left _ right =>
      match resolve_expr fuel left r interp with
      | none => none
      | some (r1, i1) => resolve_expr fuel right r1 i1
    | .Ternary condition true_expr false_expr =>
      match resolve_expr fuel condition r interp with
      | none => none
      | some (r1, i1) =>
        match resolve_expr fuel true_expr r1 i1 with
        | none => none
        | some (r2, i2) => resolve_expr fuel false_expr r2 i2
    | .Call callee _ args =>
      match resolve_expr fuel callee r interp with
      | none => none
      | some (r1, i1) => resolveArgs fuel args r1 i1
    | .Set object _ value =>
      match resolve_expr fuel value r interp with
      | none => none
      | some (r1, i1) => resolve_expr fuel object r1 i1
    | .Super nodeId keyword _ =>
      let r1 :=
        if r.current_class = ClassType.None then
          { r with errors := r.errors ++
            [CompilerError.SuperTypeError "Can't use 'super' outside of a class."
              keyword.line] }
        else if r.current_class ≠ ClassType.SubClass then
          { r with errors := r.errors ++
            [CompilerError.SuperTypeError
              "Can't use 'super' in a class with no superclass." keyword.line] }
        else r
      some (r1, resolve_local r1 nodeId keyword interp)
    | .Get object _ => resolve_expr fuel object r interp
    | .This nodeId keyword =>
      let r1 :=
        if r.current_class = ClassType.None then
          { r with errors := r.errors ++ [CompilerError.ThisOutsideClass keyword] }
        else r
      some (r1, resolve_local r1 nodeId keyword interp)
    | .Grouping inner => resolve_expr fuel inner r interp
    | .Logical left _ right =>
      match resolve_expr fuel left r interp with
      | none => none
      | some (r1, i1) => resolve_expr fuel right r1 i1
    | .Unary _ right => resolve_expr fuel right r interp
    | .Literal _ => some (r, interp)
    | _ => none

/-- The argument loop inside the Call arm of resolve_expr. -/
def resolveArgs : Nat → List Expr → Resolver → Interp →
    Option (Resolver × Interp)
  | 0, _, _, _ => none
  | _+1, [], r, interp => some (r, interp)
  | fuel+1, a :: rest, r, interp =>
    match resolve_expr fuel a r interp with
    | none => none
    | some (r1, i1) => resolveArgs fuel rest r1 i1

/-- Resolver::resolve_function (resolve.rs lines 284 to 301). -/
def resolve_function : Nat → FunctionDecl → FunctionType → Resolver → Interp →
    Option (Resolver × Interp)
  | 0, _, _, _, _ => none
  | fuel+1, func, func_type, r, interp =>
    let enclosing_func := r.current_function
    let r1 := begin_scope { r with current_function := func_type }
    let r2 := func.params.foldl (fun acc param => define (declare acc param) param) r1
    match resolve_stmts fuel func.body r2 interp with
    | none => none
    | some (r3, i3) =>
      let r4 := end_scope r3
      some ({ r4 with current_function := enclosing_func }, i3)

end

end Resolver

/-! ## Driver pipeline (main.rs fn run, lines 89 to 136).  Scanner errors
abort before parsing (out of scope here: run receives the token stream).
A successful parse with at least one statement flows through the resolver;
a non-empty resolver error list suppresses evaluation; otherwise the
statements are interpreted and the collected stdout lines are the result.
The fallback branch, for an empty statement list or a parse error, retries
the input as a single expression in the source; its result print is
commented out there, so the branch contributes no stdout and is embedded
as the empty output without rerunning the expression. -/

def run (fuel : Nat) (tokens : List Token) : Option (List String) :=
  match Parser.parse fuel (Parser.new tokens) with
  | none => none
  | some (Except.ok statements, _) =>
    if statements.isEmpty then some []
    else
      match Resolver.resolve_stmts fuel statements Resolver.new Interp.new with
      | none => none
      | some (r, interp1) =>
        if r.errors.isEmpty then
          match interpret fuel statements interp1 with
          | none => none
          | some (_, st2) => some st2.output
        else some []
  | some (Except.error _, _) => some []

/-! ## Token streams for the parser and driver claims (C1, C5, C7).  These
are the streams the scanner produces for the quoted programs, written out
directly; every token is on line 1. -/

/-- Keyword or punctuation token of the given kind and lexeme. -/
def kw (k : TokenType) (lex : String) : Token :=
  { kind := k, lexeme := lex, literal := none, line := 1 }

/-- Number token with its literal payload. -/
def numT (n : Int) : Token :=
  { kind := TokenType.Number, lexeme := toString n, literal := some (Lit.Num n),
    line := 1 }

/-- End-of-file token. -/
def eofT : Token := kw TokenType.Eof ""

/-- Tokens of the statement super.method(); (C1). -/
def c1superToks : List Token :=
  [ kw .Super "super", kw .Dot ".", kw .Identifier "method",
    kw .LeftParen "(", kw .RightParen ")", kw .Semicolon ";", eofT ]

/-- Tokens of class B < A with the single method test() whose body is
super.method(); (C1). -/
def c1classToks : List Token :=
  [ kw .Class "class", kw .Identifier "B", kw .Less "<", kw .Identifier "A",
    kw .LeftBrace "\x7b", kw .Identifier "test", kw .LeftParen "(", kw .RightParen ")",
    kw .LeftBrace "\x7b", kw .Super "super", kw .Dot ".", kw .Identifier "method",
    kw .LeftParen "(", kw .RightParen ")", kw .Semicolon ";", kw .RightBrace "\x7d",
    kw .RightBrace "\x7d", eofT ]

/-- Tokens of for (;;) break; (C5). -/
def c5forToks : List Token :=
  [ kw .For "for", kw .LeftParen "(", kw .Semicolon ";", kw .Semicolon ";",
    kw .RightParen ")", kw .Break "break", kw .Semicolon ";", eofT ]

/-- Tokens of while (true) break; (C5). -/
def c5whileToks : List Token :=
  [ kw .While "while", kw .LeftParen "(", kw .True "true", kw .RightParen ")",
    kw .Break "break", kw .Semicolon ";", eofT ]

/-- Tokens of var 1; print 2; where the first declaration is malformed
(C7). -/
def c7toks : List Token :=
  [ kw .Var "var", numT 1, kw .Semicolon ";",
    kw .Print "print", numT 2, kw .Semicolon ";", eofT ]

/-- String token with its literal payload. -/
def strT (s : String) : Token :=
  { kind := TokenType.String, lexeme := s, literal := some (Lit.Str s), line := 1 }

/-- Tokens of the full nested-for program of C5: for (var i = 0; i < 3;
i = i + 1) over for (var j = 0; j < 3; j = j + 1) over a block holding
if (j == 1) break; then print i; print j;. -/
def c5progToks : List Token :=
  [ kw .For "for", kw .LeftParen "(", kw .Var "var", kw .Identifier "i", kw .Equal "=", numT 0, kw .Semicolon ";",
      kw .Identifier "i", kw .Less "<", numT 3, kw .Semicolon ";",
      kw .Identifier "i", kw .Equal "=", kw .Identifier "i", kw .Plus "+", numT 1, kw .RightParen ")",
    kw .LeftBrace "\x7b",
      kw .For "for", kw .LeftParen "(", kw .Var "var", kw .Identifier "j", kw .Equal "=", numT 0, kw .Semicolon ";",
        kw .Identifier "j", kw .Less "<", numT 3, kw .Semicolon ";",
        kw .Identifier "j", kw .Equal "=", kw .Identifier "j", kw .Plus "+", numT 1, kw .RightParen ")",
      kw .LeftBrace "\x7b",
        kw .If "if", kw .LeftParen "(", kw .Identifier "j", kw .EqualEqual "==", numT 1, kw .RightParen ")",
          kw .Break "break", kw .Semicolon ";",
        kw .Print "print", kw .Identifier "i", kw .Semicolon ";",
        kw .Print "print", kw .Identifier "j", kw .Semicolon ";",
      kw .RightBrace "\x7d",
    kw .RightBrace "\x7d", eofT ]

/-- Tokens of the full inheritance program of C1: class A with method
printing A; class B under A with method printing B and test calling
super.method(); class C under B; then C().test();. -/
def c1progToks : List Token :=
  [ kw .Class "class", kw .Identifier "A", kw .LeftBrace "\x7b",
      kw .Identifier "method", kw .LeftParen "(", kw .RightParen ")", kw .LeftBrace "\x7b",
        kw .Print "print", strT "A", kw .Semicolon ";", kw .RightBrace "\x7d",
    kw .RightBrace "\x7d",
    kw .Class "class", kw .Identifier "B", kw .Less "<", kw .Identifier "A", kw .LeftBrace "\x7b",
      kw .Identifier "method", kw .LeftParen "(", kw .RightParen ")", kw .LeftBrace "\x7b",
        kw .Print "print", strT "B", kw .Semicolon ";", kw .RightBrace "\x7d",
      kw .Identifier "test", kw .LeftParen "(", kw .RightParen ")", kw .LeftBrace "\x7b",
        kw .Super "super", kw .Dot ".", kw .Identifier "method",
        kw .LeftParen "(", kw .RightParen ")", kw .Semicolon ";", kw .RightBrace "\x7d",
    kw .RightBrace "\x7d",
    kw .Class "class", kw .Identifier "C", kw .Less "<", kw .Identifier "B", kw .LeftBrace "\x7b", kw .RightBrace "\x7d",
    kw .Identifier "C", kw .LeftParen "(", kw .RightParen ")", kw .Dot ".", kw .Identifier "test",
    kw .LeftParen "(", kw .RightParen ")", kw .Semicolon ";", eofT ]

/-- Scanner state inside the newline-free literal of the source text
double quote, a, b, double quote, right after the opening quote; the loop
of Scanner.string handles it correctly, which isolates the C4 divergence
to the newline arm. -/
def abState : ScanSt :=
  { source := ['"', 'a', 'b', '"'], start := 0, current := 1, line := 1,
    tokens := [] }

/-! ## Theorems.  Everything below settles or supports a claim about the
definitions above; no further definitions appear. -/

-- THEOREMS-BELOW

/-- Key step for C4: with the cursor of the state parked on the embedded
newline, one loop iteration only increments the line counter and changes
nothing else, so the loop never ends, whatever the fuel. -/
theorem stringF_newline_stuck (toks : List Token) :
    ∀ fuel line, Scanner.stringF fuel
      { source := c4source, start := 0, current := 2, line := line,
        tokens := toks } = none := by
  intro fuel
  induction fuel with
  | zero => intro line; rfl
  | succ n ih =>
    intro line
    rw [Scanner.stringF]
    exact ih (line + 1)

/-- C4: the claim says scanning terminates on every input and that a string
literal with an embedded newline is scanned into a single String token with
the line counter incremented once per newline.  On the source text of
c4source the code instead loops forever: the newline arm of the loop in
Scanner.string increments the line counter without advancing the cursor,
so the same newline is peeked again on every iteration and the function
exhausts any fuel without producing a token.  The second conjunct scans
the same literal without the newline into its String token, isolating the
divergence to the newline arm. -/
theorem c4_string_embedded_newline_diverges :
    (∀ fuel, Scanner.stringF fuel c4state = none) ∧
    Scanner.stringF 10 abState =
      some (Except.ok
        { abState with
            current := 4,
            tokens := [{ kind := TokenType.String, lexeme := "\"ab\"",
                         literal := some (Lit.Str "ab"), line := 1 }] }) := by
  refine ⟨?_, rfl⟩
  intro fuel
  cases fuel with
  | zero => rfl
  | succ n =>
    have h : Scanner.stringF (n + 1) c4state =
        Scanner.stringF n
          { source := c4source, start := 0, current := 2, line := 1,
            tokens := [] } := rfl
    rw [h]
    exact stringF_newline_stuck [] n 1

/-- C3, shown false on the code: assign called on the inner scope of
c3envs.  Assigning x does update the global binding and return the value,
but it also creates a brand new binding x in the inner scope, because the
source tests membership with HashMap insert, which inserts first and asks
later.  Assigning the never-bound y fails with UndefinedVariable as
claimed, yet leaves a new y binding in both scopes on the error path.  The
claim says every scope other than the updated one is left unchanged. -/
theorem c3_assign_creates_inner_bindings :
    Environment.assign 3 c3envs 1 xTok (Value.VNumber 2) =
      some (Except.ok (Value.VNumber 2),
        [ { enclosing := none, values := [("x", Value.VNumber 2)] },
          { enclosing := some 0, values := [("x", Value.VNumber 2)] } ]) ∧
    Environment.assign 3 c3envs 1 yTok (Value.VNumber 5) =
      some (Except.error (RuntimeError.UndefinedVariable "y"),
        [ { enclosing := none, values := [("x", Value.VNumber 1), ("y", Value.VNumber 5)] },
          { enclosing := some 0, values := [("y", Value.VNumber 5)] } ]) := by
  exact ⟨rfl, rfl⟩

/-- Unrolling lemma for ancestor: one more link first follows the
enclosing edge of the starting scope. -/
theorem ancestor_succ (envs : List EnvData) (eid d : Nat) :
    Environment.ancestor envs eid (d + 1) =
      match enclosingOf envs eid with
      | some p => Environment.ancestor envs p d
      | none => none := by
  simp only [Environment.ancestor, enclosingOf]
  cases h : envs.get? eid with
  | none => rfl
  | some ed => cases h2 : ed.enclosing <;> simp [h2]

/-- C10: the distance-based accessors are total and never panic.  First,
ancestor walks exactly d enclosing links: zero links is the scope itself,
and d+1 links is the enclosing of the scope d links up, with none
propagated when the chain ends early.  Second, when the chain is shorter
than the requested distance, get_at, get_at_string and assign_at all
surface UndefinedVariable instead of panicking, and assign_at leaves the
arena unchanged. -/
theorem c10_distance_accessors_total (envs : List EnvData) (eid : Nat) :
    Environment.ancestor envs eid 0 = some eid ∧
    (∀ d, Environment.ancestor envs eid (d + 1) =
      (Environment.ancestor envs eid d).bind (enclosingOf envs)) ∧
    (∀ d name fuel, Environment.ancestor envs eid d = none →
      Environment.get_at fuel envs eid d name =
        some (Except.error (RuntimeError.UndefinedVariable name.lexeme)) ∧
      (∀ s, Environment.get_at_string envs eid d s =
        Except.error (RuntimeError.UndefinedVariable s)) ∧
      ∀ v, Environment.assign_at fuel envs eid d name v =
        some (Except.error (RuntimeError.UndefinedVariable name.lexeme), envs)) := by
  refine ⟨rfl, ?_, ?_⟩
  · intro d
    induction d generalizing eid with
    | zero =>
      rw [ancestor_succ]
      have h0 : Environment.ancestor envs eid 0 = some eid := rfl
      rw [h0, Option.some_bind]
      cases enclosingOf envs eid with
      | none => rfl
      | some p => rfl
    | succ n ih =>
      rw [ancestor_succ envs eid (n + 1), ancestor_succ envs eid n]
      cases enclosingOf envs eid with
      | none => rfl
      | some p => exact ih p
  · intro d name fuel h
    refine ⟨?_, ?_, ?_⟩
    · simp only [Environment.get_at, h]
    · intro s
      simp only [Environment.get_at_string, h]
    · intro v
      simp only [Environment.assign_at, h]

/-- Witness for C10 at a concrete short chain: a single-scope arena, the
scope itself at distance zero, and distance one running past the chain end
with all three accessors reporting UndefinedVariable. -/
theorem c10_distance_accessors_total_witness :
    Environment.ancestor [⟨none, []⟩] 0 1 = none ∧
    Environment.get_at 5 [⟨none, []⟩] 0 1 xTok =
      some (Except.error (RuntimeError.UndefinedVariable "x")) ∧
    Environment.get_at_string [⟨none, []⟩] 0 1 "x" =
      Except.error (RuntimeError.UndefinedVariable "x") ∧
    Environment.assign_at 5 [⟨none, []⟩] 0 1 xTok Value.VNil =
      some (Except.error (RuntimeError.UndefinedVariable "x"), [⟨none, []⟩]) := by
  have h : Environment.ancestor [(⟨none, []⟩ : EnvData)] 0 1 = none := rfl
  obtain ⟨-, -, h3⟩ := c10_distance_accessors_total [(⟨none, []⟩ : EnvData)] 0
  obtain ⟨ha, hb, hc⟩ := h3 1 xTok 5 h
  exact ⟨h, ha, hb "x", hc Value.VNil⟩

/-- C6: the claim says a comma expression evaluates each operand exactly
once.  The code first evaluates both operands, then the comma arm of
evaluate_binary evaluates both again: on the expression x = x + 1 , x
with x initially zero, the assignment runs twice, so x finishes at two
and the whole expression yields two (the claim implies one and one).  The
second conjunct runs the two-statement program from a fresh interpreter
and reads the final global binding of x. -/
theorem c6_comma_evaluates_operands_twice :
    evaluate 20 c6expr c6st =
      some (Except.ok (Value.VNumber 2),
        { c6st with envs :=
          [({ c6global with
              values := [("clock", Value.VClock), ("x", Value.VNumber 2)] })] }) ∧
    (interpret 99 c6prog Interp.new).map (fun r => r.2.envs) =
      some [{ enclosing := none,
              values := [("clock", Value.VClock), ("x", Value.VNumber 2)] }] := by
  exact ⟨rfl, rfl⟩

/-- C8: calling a class always yields the freshly constructed instance,
the one allocated at the head of LoxClass.call (its index is the arena
size at entry), whatever init returned; and the concrete bare-return
program class Foo with init returning early still prints the instance
form of f. -/
theorem c8_class_call_returns_fresh_instance :
    (∀ fuel c args st v st',
      LoxClass.call fuel c args st = some (Except.ok v, st') →
      v = Value.VInstance st.insts.length) ∧
    (interpret 99 c8prog Interp.new).map (fun r => r.2.output) =
      some ["Foo instance"] := by
  constructor
  · intro fuel c args st v st' h
    cases fuel with
    | zero => exact absurd h (by simp [LoxClass.call])
    | succ n =>
      rw [LoxClass.call] at h
      split at h
      · dsimp only at h
        split at h
        · exact absurd h (by simp)
        · simp at h
        · simp at h
          exact h.1.symm
      · simp at h
        exact h.1.symm
  · rfl

/-- Witness for C8 at a concrete call: instantiating a methodless class
from a fresh interpreter yields the instance with index zero. -/
theorem c8_class_call_returns_fresh_instance_witness :
    Value.VInstance 0 = Value.VInstance Interp.new.insts.length :=
  c8_class_call_returns_fresh_instance.1 1 c8emptyClass [] Interp.new
    (Value.VInstance 0)
    { Interp.new with insts := [{ klass := c8emptyClass, fields := [] }] } rfl

/-- C9: execute_block and Function::call restore the interpreter current
environment on every exit path.  Both functions capture the previous
environment, run under the fresh one, and write the captured environment
back into whatever state the run produced, so any completed outcome,
normal, runtime error, ReturnException or BreakException, carries the
original environment. -/
theorem c9_scopes_restored_on_every_exit :
    (∀ fuel stmts new_env st r st',
      execute_block fuel stmts new_env st = some (r, st') →
      st'.environment = st.environment) ∧
    (∀ fuel f args st r st',
      LoxFunction.call fuel f args st = some (r, st') →
      st'.environment = st.environment) := by
  constructor
  · intro fuel stmts new_env st r st' h
    cases fuel with
    | zero => exact absurd h (by simp [execute_block])
    | succ n =>
      rw [execute_block] at h
      split at h
      · exact absurd h (by simp)
      · simp at h
        rw [← h.2]
  · intro fuel f args st r st' h
    cases fuel with
    | zero => exact absurd h (by simp [LoxFunction.call])
    | succ n =>
      rw [LoxFunction.call] at h
      split at h
      · exact absurd h (by simp)
      · simp at h
        rw [← h.2]

/-- Witness for C9 at concrete runs: an empty block under a fresh scope
and a call of the parameterless function both hand back a state whose
environment equals the one they started from. -/
theorem c9_scopes_restored_on_every_exit_witness :
    ({ Interp.new with environment := 0 } : Interp).environment =
      Interp.new.environment ∧
    ({ Interp.new with envs := Interp.new.envs ++ [c9env], environment := 0 }
      : Interp).environment = Interp.new.environment :=
  ⟨c9_scopes_restored_on_every_exit.1 2 [] 5 Interp.new (Except.ok ())
      { Interp.new with environment := 0 } rfl,
   c9_scopes_restored_on_every_exit.2 2 c9fn [] Interp.new (Except.ok Value.VNil)
      { Interp.new with envs := Interp.new.envs ++ [c9env], environment := 0 } rfl⟩

/-- C1: the claim says the parser accepts super.method() and produces a
Super node.  Parser::primary has no arm for the Super token kind, so the
expression statement super.method(); fails with UnexpectedExpression at
the super token; and parsing the class B program from the claim yields a
class whose test method has an empty body: the whole super call statement
was discarded by synchronize and no Super node exists anywhere in the
output; the claimed program therefore cannot print the line A through a
super dispatch. -/
theorem c1_parser_rejects_super :
    (Parser.primary 50 (Parser.new c1superToks)).map (fun r => r.1) =
      some (Except.error
        (ParserError.UnexpectedExpression (kw TokenType.Super "super") 1)) ∧
    (Parser.parse 100 (Parser.new c1classToks)).map (fun r => r.1) =
      some (Except.ok
        [Stmt.Class (kw TokenType.Identifier "B")
          (some (Expr.Variable 0 (kw TokenType.Identifier "A")))
          [FunctionDecl.mk (some (kw TokenType.Identifier "test")) [] []]]) := by
  exact ⟨rfl, rfl⟩

/-- C2: the claim says the resolver finishes every parsed program,
recursing into lambda and increment or decrement nodes like any other
composite expression.  Those two forms fall into the unimplemented
catch-all of resolve_expr and panic, whatever the state and fuel; a
one-statement program containing x++ already brings the whole resolver
pass down. -/
theorem c2_resolver_panics_on_mutate_and_lambda :
    (∀ fuel operator operand post r i,
      Resolver.resolve_expr fuel (Expr.Mutate operator operand post) r i = none) ∧
    (∀ fuel params body r i,
      Resolver.resolve_expr fuel (Expr.Lambda params body) r i = none) ∧
    (∀ fuel r i,
      Resolver.resolve_stmts fuel
        [Stmt.Expression (Expr.Mutate (kw TokenType.Increment "++")
          (Expr.Variable 9 (idTok "x")) true)] r i = none) := by
  refine ⟨?_, ?_, ?_⟩
  · intro fuel operator operand post r i
    cases fuel <;> rfl
  · intro fuel params body r i
    cases fuel <;> rfl
  · intro fuel r i
    cases fuel with
    | zero => rfl
    | succ n =>
      cases n with
      | zero => rfl
      | succ m => cases m <;> rfl

/-- C5: the claim says a break lexically inside a for body sits at loop
depth above zero and parses.  Only while_statement moves the loop depth
counter; for_statement parses its body at whatever depth it was entered
with, so at the top level the break inside for (;;) break; is rejected
with the BreakException parse error, while the same break inside
while (true) break; parses into a Break node.  In the nested-for program
of the claim the failing break sits inside an if inside a block, so the
enclosing declaration swallows the error and drops only the if statement;
the claimed six-line output cannot arise. -/
theorem c5_break_inside_for_is_parse_error :
    (Parser.statement 100 (Parser.new c5forToks)).map (fun r => r.1) =
      some (Except.error (ParserError.BreakException 1)) ∧
    (Parser.statement 100 (Parser.new c5whileToks)).map (fun r => r.1) =
      some (Except.ok (Stmt.While (Expr.Literal Lit.True)
        (Stmt.Break (kw TokenType.Break "break")))) := by
  exact ⟨rfl, rfl⟩

/-- C7, refuted as stated: on var 1; print 2; the first declaration fails
to parse (UnexpectedToken, an Identifier was expected and the number one
found), the parser synchronizes and still parses the print statement, and
the driver then resolves and executes it, printing 2: the evaluator does
run on a program that had a parse error. -/
theorem c7_statements_execute_after_parse_error :
    (Parser.var_declaration 100
        ((Parser.new c7toks).matchesAny [TokenType.Var]).2).map (fun r => r.1) =
      some (Except.error
        (ParserError.UnexpectedToken TokenType.Identifier (numT 1) 1)) ∧
    (Parser.parse 100 (Parser.new c7toks)).map (fun r => r.1) =
      some (Except.ok [Stmt.Print (Expr.Literal (Lit.Num 2))]) ∧
    run 300 c7toks = some ["2"] := by
  exact ⟨rfl, rfl, rfl⟩

/-- C7 as amended: declaration never reports an error (it swallows the
failure, synchronizes and drops the declaration), so the driver always
receives a successful parse and executes whatever statements survived;
on var 1; print 2; the surviving print runs and writes 2. -/
theorem c7_declaration_swallows_errors_and_execution_proceeds :
    (∀ fuel p res p', Parser.declaration fuel p = some (res, p') →
      ∃ os, res = Except.ok os) ∧
    run 300 c7toks = some ["2"] := by
  constructor
  · intro fuel p res p' h
    cases fuel with
    | zero => exact absurd h (by simp [Parser.declaration])
    | succ n =>
      rw [Parser.declaration] at h
      dsimp only at h
      split at h
      · exact absurd h (by simp)
      · simp at h
        exact ⟨_, h.1.symm⟩
      · split at h
        · exact absurd h (by simp)
        · simp at h
          exact ⟨_, h.1.symm⟩
  · rfl

/-- Witness for the amended C7 at a concrete input: the malformed first
declaration of var 1; print 2; comes back as a successful none. -/
theorem c7_declaration_swallows_errors_and_execution_proceeds_witness :
    ∃ os, (Except.ok none : Except ParserError (Option Stmt)) = Except.ok os :=
  c7_declaration_swallows_errors_and_execution_proceeds.1 100
    (Parser.new c7toks) (Except.ok none)
    { Parser.new c7toks with current := 3 } rfl
